import Mathlib

/-!
# Verification of the python-netflow-v9-softflowd packet decoders

A shallow embedding of the NetFlow v1/v5/v9 and IPFIX decoders of
`netflow/v1.py`, `netflow/v5.py`, `netflow/v9.py`, `netflow/ipfix.py`,
`netflow/utils.py` and of the reference collector loop of
`netflow/collector.py`, together with theorems about the embedded code.

Datagrams are byte lists (`List Nat`); `struct.unpack` calls, Python dict
operations and Python exceptions are modelled explicitly.  Loops of the
source that are not structurally decreasing are modelled with an explicit
fuel parameter; exhausting the fuel is a distinguished outcome
(`PyErr.nonTermination`) marking inputs on which the source loop would not
terminate, and sufficiency of the fuel is proved where a claim needs it.
-/

namespace Netflow

/-- Python exceptions (and exception-like outcomes) raised by the embedded
code.  `nonTermination` is not a Python exception: it marks a source loop
that would run forever (see the fuel discipline in the file header). -/
inductive PyErr where
  | structError
  | nameError
  | indexError
  | valueError
  | typeError
  | notImplementedError
  | attributeError
  | runtimeError
  | zeroDivisionError
  | fromhexValueError
  | v9TemplateNotRecognized
  | ipfixTemplateNotRecognized
  | ipfixRFCError
  | ipfixTemplateError
  | ipfixMalformedRecord
  | ipfixMalformedPacket
  | paddingCalculationError
  | unknownExportVersion
  | nonTermination
  | walkFuelOut
  deriving DecidableEq, Repr

/-- Python slice `data[a:b]` on a byte string. -/
def pySlice (data : List Nat) (a b : Nat) : List Nat :=
  (data.drop a).take (b - a)

/-- Python slice `data[a:]`. -/
def pyDrop (data : List Nat) (a : Nat) : List Nat :=
  data.drop a

/-- Big-endian integer value of a byte sequence (`int.from_bytes(bs, "big")`,
and the value produced by `struct.unpack` for the network-order integer
formats `!B`, `!H`, `!I`/`!L`, `!Q`). -/
def beNat (bs : List Nat) : Nat :=
  bs.foldl (fun a b => a * 256 + b) 0

/-- `struct.unpack` of one big-endian unsigned integer of `n` octets located
at `data[off:off+n]`: `struct.error` unless exactly `n` octets are
available. -/
def readBE (data : List Nat) (off n : Nat) : Except PyErr Nat :=
  let s := pySlice data off (off + n)
  if s.length = n then .ok (beNat s) else .error .structError

/-- Association list with Python `dict` semantics (insertion order kept,
key update in place). -/
abbrev PyDict (α : Type) := List (Nat × α)

/-- `k in d`. -/
def pyContains (d : PyDict α) (k : Nat) : Bool :=
  d.any (fun p => p.1 = k)

/-- `d.get(k)` / `d[k]` lookup (first binding wins; dicts built by
`pyInsert` have unique keys). -/
def pyGet (d : PyDict α) (k : Nat) : Option α :=
  (d.find? (fun p => p.1 = k)).map Prod.snd

/-- `d[k] = v`: update in place if the key exists, append otherwise. -/
def pyInsert (d : PyDict α) (k : Nat) (v : α) : PyDict α :=
  if pyContains d k then d.map (fun p => if p.1 = k then (k, v) else p)
  else d ++ [(k, v)]

/-- `d.update(e)`: fold the bindings of `e` into `d` in order. -/
def pyUpdate (d e : PyDict α) : PyDict α :=
  e.foldl (fun acc p => pyInsert acc p.1 p.2) d

/-- `list(d.keys())`. -/
def pyKeys (d : PyDict α) : List Nat :=
  d.map Prod.fst

/-! ## netflow/v1.py -/

/-- Header of `V1ExportPacket` (`struct.unpack('!HHIII', data[:16])`). -/
structure V1Header where
  version : Nat
  count : Nat
  uptime : Nat
  timestamp : Nat
  timestampNano : Nat
  deriving DecidableEq, Repr

/-- `v1.Header.__init__`. -/
def v1ParseHeader (data : List Nat) : Except PyErr V1Header :=
  if (pySlice data 0 16).length = 16 then
    .ok { version := beNat (pySlice data 0 2)
          count := beNat (pySlice data 2 4)
          uptime := beNat (pySlice data 4 8)
          timestamp := beNat (pySlice data 8 12)
          timestampNano := beNat (pySlice data 12 16) }
  else .error .structError

/-- One v1 record as built by the class `v1.DataFlow` (fields at the
declared offsets of one 48-octet record). -/
structure V1Flow where
  ipv4SrcAddr : Nat
  ipv4DstAddr : Nat
  nextHop : Nat
  input : Nat
  output : Nat
  inPackets : Nat
  inOctets : Nat
  firstSwitched : Nat
  lastSwitched : Nat
  srcPort : Nat
  dstPort : Nat
  proto : Nat
  tos : Nat
  tcpFlags : Nat
  deriving DecidableEq, Repr

/-- `v1.DataFlow.__init__` (the class as defined at `v1.py:17`). -/
def v1DataFlow (data : List Nat) : Except PyErr V1Flow := do
  let srcAddr ← readBE data 0 4
  let dstAddr ← readBE data 4 4
  let nextHop ← readBE data 8 4
  let input ← readBE data 12 2
  let output ← readBE data 14 2
  let inPackets ← readBE data 16 4
  let inOctets ← readBE data 20 4
  let firstSw ← readBE data 24 4
  let lastSw ← readBE data 28 4
  let srcPort ← readBE data 32 2
  let dstPort ← readBE data 34 2
  let proto ← readBE data 38 1
  let tos ← readBE data 39 1
  let tcpFlags ← readBE data 40 1
  .ok { ipv4SrcAddr := srcAddr, ipv4DstAddr := dstAddr, nextHop := nextHop
        input := input, output := output, inPackets := inPackets
        inOctets := inOctets, firstSwitched := firstSw, lastSwitched := lastSw
        srcPort := srcPort, dstPort := dstPort, proto := proto, tos := tos
        tcpFlags := tcpFlags }

/-- A parsed `V1ExportPacket`. -/
structure V1Packet where
  header : V1Header
  flows : List V1Flow
  deriving DecidableEq, Repr

/-- The record-reading loop of `V1ExportPacket.__init__` (`v1.py:67-70`).
The loop body is `flow = V1DataFlow(data[offset:])`, but the module
`netflow.v1` defines no name `V1DataFlow` (the record class at `v1.py:17`
is named `DataFlow`), so the first iteration raises `NameError`; with
`count = 0` the loop body never runs. -/
def v1FlowLoop (count : Nat) : Except PyErr (List V1Flow) :=
  match count with
  | 0 => .ok []
  | _ + 1 => .error .nameError

/-- `v1.V1ExportPacket.__init__`. -/
def v1ExportPacket (data : List Nat) : Except PyErr V1Packet := do
  let h ← v1ParseHeader data
  let flows ← v1FlowLoop h.count
  .ok { header := h, flows := flows }

/-! ## netflow/v5.py -/

/-- Header of `V5ExportPacket` (`struct.unpack('!HHIIIIBBH', data[:24])`). -/
structure V5Header where
  version : Nat
  count : Nat
  uptime : Nat
  timestamp : Nat
  timestampNano : Nat
  sequence : Nat
  engineType : Nat
  engineId : Nat
  samplingInterval : Nat
  deriving DecidableEq, Repr

/-- `v5.Header.__init__`. -/
def v5ParseHeader (data : List Nat) : Except PyErr V5Header :=
  if (pySlice data 0 24).length = 24 then
    .ok { version := beNat (pySlice data 0 2)
          count := beNat (pySlice data 2 4)
          uptime := beNat (pySlice data 4 8)
          timestamp := beNat (pySlice data 8 12)
          timestampNano := beNat (pySlice data 12 16)
          sequence := beNat (pySlice data 16 20)
          engineType := beNat (pySlice data 20 21)
          engineId := beNat (pySlice data 21 22)
          samplingInterval := beNat (pySlice data 22 24) }
  else .error .structError

/-- One v5 record as built by `v5.DataFlow`. -/
structure V5Flow where
  ipv4SrcAddr : Nat
  ipv4DstAddr : Nat
  nextHop : Nat
  input : Nat
  output : Nat
  inPackets : Nat
  inOctets : Nat
  firstSwitched : Nat
  lastSwitched : Nat
  srcPort : Nat
  dstPort : Nat
  tcpFlags : Nat
  proto : Nat
  tos : Nat
  srcAs : Nat
  dstAs : Nat
  srcMask : Nat
  dstMask : Nat
  deriving DecidableEq, Repr

/-- `v5.DataFlow.__init__`. -/
def v5DataFlow (data : List Nat) : Except PyErr V5Flow := do
  let srcAddr ← readBE data 0 4
  let dstAddr ← readBE data 4 4
  let nextHop ← readBE data 8 4
  let input ← readBE data 12 2
  let output ← readBE data 14 2
  let inPackets ← readBE data 16 4
  let inOctets ← readBE data 20 4
  let firstSw ← readBE data 24 4
  let lastSw ← readBE data 28 4
  let srcPort ← readBE data 32 2
  let dstPort ← readBE data 34 2
  let tcpFlags ← readBE data 37 1
  let proto ← readBE data 38 1
  let tos ← readBE data 39 1
  let srcAs ← readBE data 40 2
  let dstAs ← readBE data 42 2
  let srcMask ← readBE data 44 1
  let dstMask ← readBE data 45 1
  .ok { ipv4SrcAddr := srcAddr, ipv4DstAddr := dstAddr, nextHop := nextHop
        input := input, output := output, inPackets := inPackets
        inOctets := inOctets, firstSwitched := firstSw, lastSwitched := lastSw
        srcPort := srcPort, dstPort := dstPort, tcpFlags := tcpFlags
        proto := proto, tos := tos, srcAs := srcAs, dstAs := dstAs
        srcMask := srcMask, dstMask := dstMask }

/-- A parsed `V5ExportPacket`. -/
structure V5Packet where
  header : V5Header
  flows : List V5Flow
  deriving DecidableEq, Repr

/-- The record-reading loop of `V5ExportPacket.__init__`: one 48-octet
record per count, consumed at `data[offset:]`. -/
def v5FlowLoop (data : List Nat) (offset : Nat) : Nat → Except PyErr (List V5Flow)
  | 0 => .ok []
  | n + 1 => do
    let f ← v5DataFlow (pyDrop data offset)
    let rest ← v5FlowLoop data (offset + 48) n
    .ok (f :: rest)

/-- `v5.V5ExportPacket.__init__`. -/
def v5ExportPacket (data : List Nat) : Except PyErr V5Packet := do
  let h ← v5ParseHeader data
  let flows ← v5FlowLoop data 24 h.count
  .ok { header := h, flows := flows }

/-! ## netflow/v9.py -/

/-- The key set of the dict literal `V9_FIELD_TYPES` (`v9.py:27-162`).
Only membership is behaviourally relevant: records are keyed here by the
numeric field type instead of by the (unique) name string the source maps
it to. -/
def v9FieldTypeKnown (t : Nat) : Bool :=
  t ≤ 42 && t ≠ 43 || (44 ≤ t && t ≤ 50) || (52 ≤ t && t ≤ 64) ||
  (70 ≤ t && t ≤ 86) || (88 ≤ t && t ≤ 96) || (98 ≤ t && t ≤ 100) ||
  (102 ≤ t && t ≤ 104) ||
  [148, 152, 176, 177, 178, 179, 225, 226, 227, 228, 231, 232, 233, 281, 282,
   323, 346, 33000, 33001, 33002, 40000, 56701, 56702].contains t

/-- `V9_FIELD_TYPES_CONTAINING_IP` (`v9.py:25`). -/
def v9FieldTypesContainingIp : List Nat := [8, 12, 15, 18, 27, 28, 62, 63]

/-- `v9.V9TemplateField`. -/
structure V9TemplateField where
  fieldType : Nat
  fieldLength : Nat
  deriving DecidableEq, Repr

/-- `v9.V9TemplateRecord`. -/
structure V9TemplateRecord where
  templateId : Nat
  fieldCount : Nat
  fields : List V9TemplateField
  deriving DecidableEq, Repr

/-- `v9.V9OptionsTemplateRecord`: scope fields and option fields are Python
dicts `field_type -> field_length`. -/
structure V9OptionsTemplateRecord where
  templateId : Nat
  scopeFields : PyDict Nat
  optionFields : PyDict Nat
  deriving DecidableEq, Repr

/-- A value stored in the v9 template store `self._templates`, which holds
either `V9TemplateRecord` or `V9OptionsTemplateRecord` objects. -/
inductive V9Template where
  | record (t : V9TemplateRecord)
  | options (o : V9OptionsTemplateRecord)
  deriving DecidableEq, Repr

/-- The field loop of `V9TemplateFlowSet.__init__` (`v9.py:457-464`): the
i-th field is read at `offset + 4*(i+1)`; an unknown field type falls back
to type 0. -/
def v9ReadFields (data : List Nat) (offset : Nat) : Nat → Except PyErr (List V9TemplateField)
  | 0 => .ok []
  | n + 1 => do
    let ft ← readBE data (offset + 4) 2
    let fl ← readBE data (offset + 6) 2
    let rest ← v9ReadFields data (offset + 4) n
    .ok (⟨if v9FieldTypeKnown ft then ft else 0, fl⟩ :: rest)

/-- The template-record loop of `V9TemplateFlowSet.__init__`
(`v9.py:451-473`); after a record of `fcount` fields the offset stands at
`offset + 4*fcount + 4`, so every iteration advances by at least 4 octets
and the fuel `length + 1` supplied by `v9TemplateFlowSet` is never
exhausted. -/
def v9TemplateLoop (data : List Nat) (length offset : Nat)
    (acc : PyDict V9TemplateRecord) (fuel : Nat) :
    Except PyErr (PyDict V9TemplateRecord) :=
  if offset < length then
    match fuel with
    | 0 => .error .nonTermination
    | fuel + 1 => do
      let tid ← readBE data offset 2
      let fcount ← readBE data (offset + 2) 2
      let fields ← v9ReadFields data offset fcount
      v9TemplateLoop data length (offset + 4 * fcount + 4)
        (pyInsert acc tid ⟨tid, fcount, fields⟩) fuel
  else .ok acc

/-- `v9.V9TemplateFlowSet.__init__`, returning
`(flowset_id, length, templates)`. -/
def v9TemplateFlowSet (data : List Nat) :
    Except PyErr (Nat × Nat × PyDict V9TemplateRecord) := do
  let fsId ← readBE data 0 2
  let len ← readBE data 2 2
  let tpls ← v9TemplateLoop data len 4 [] (len + 1)
  .ok (fsId, len, tpls)

/-- The scope/option field pair loop of
`V9OptionsTemplateFlowSet.__init__`: `count` pairs of
`(field_type u16, field_length u16)` collected into a dict. -/
def v9ReadPairs (data : List Nat) (offset : Nat) (acc : PyDict Nat) :
    Nat → Except PyErr (PyDict Nat)
  | 0 => .ok acc
  | n + 1 => do
    let t ← readBE data offset 2
    let l ← readBE data (offset + 2) 2
    v9ReadPairs data (offset + 4) (pyInsert acc t l) n

/-- The record loop of `V9OptionsTemplateFlowSet.__init__`
(`v9.py:342-378`), including the `ValueError` on scope/option lengths not
divisible by 4 and the 2-octet padding step; every iteration advances by
at least 6 octets, so the fuel `length + 1` is never exhausted. -/
def v9OptionsTemplateLoop (data : List Nat) (length offset : Nat)
    (acc : PyDict V9OptionsTemplateRecord) (fuel : Nat) :
    Except PyErr (PyDict V9OptionsTemplateRecord) :=
  if offset < length then
    match fuel with
    | 0 => .error .nonTermination
    | fuel + 1 => do
      let tid ← readBE data offset 2
      let sl ← readBE data (offset + 2) 2
      let ol ← readBE data (offset + 4) 2
      if sl % 4 ≠ 0 || ol % 4 ≠ 0 then .error .valueError
      else do
        let scopes ← v9ReadPairs data (offset + 6) [] (sl / 4)
        let opts ← v9ReadPairs data (offset + 6 + sl) [] (ol / 4)
        let off2 := offset + 6 + sl + ol
        let off3 := if off2 % 4 = 2 then off2 + 2 else off2
        v9OptionsTemplateLoop data length off3 (pyInsert acc tid ⟨tid, scopes, opts⟩) fuel
  else .ok acc

/-- `v9.V9OptionsTemplateFlowSet.__init__`, returning
`(flowset_id, flowset_length, templates)`. -/
def v9OptionsTemplateFlowSet (data : List Nat) :
    Except PyErr (Nat × Nat × PyDict V9OptionsTemplateRecord) := do
  let fsId ← readBE data 0 2
  let len ← readBE data 2 2
  let tpls ← v9OptionsTemplateLoop data len 4 [] (len + 1)
  .ok (fsId, len, tpls)

/-- A decoded v9 data-record value: a plain integer, or an IP address kept
as its numeric value (the source stores `ip.compressed`, the address
string; the numeric value determines that string). -/
inductive V9Value where
  | num (n : Nat)
  | ip4 (n : Nat)
  | ip6 (n : Nat)
  deriving DecidableEq, Repr

/-- `padding_size = 4 - (self.length % 4)` (`v9.py:208`). -/
def v9PaddingSize (length : Nat) : Nat := 4 - length % 4

/-- The per-field value loop inside one data record of
`V9DataFlowSet.__init__` (`v9.py:234-260`): walks the template fields at
stream position `p`, building the record dict (keyed here by field type)
and the total offset advance.  An IP-typed field whose value
`ipaddress.ip_address` rejects (a byte string whose length is neither 4
nor 16) is skipped by `continue`, which also skips the `offset += flen`
advance; integer values below 2^32 parse as IPv4, larger ones below 2^128
as IPv6. -/
def v9UnpackFields (data : List Nat) (p adv : Nat) (acc : PyDict V9Value) :
    List V9TemplateField → PyDict V9Value × Nat
  | [] => (acc, adv)
  | f :: rest =>
    let flen := f.fieldLength
    let raw := pySlice data p (p + flen)
    if v9FieldTypesContainingIp.contains f.fieldType then
      if flen = 4 || flen = 2 || flen = 1 then
        let n := beNat raw
        if n < 2 ^ 32 then
          v9UnpackFields data (p + flen) (adv + flen)
            (pyInsert acc f.fieldType (.ip4 n)) rest
        else if n < 2 ^ 128 then
          v9UnpackFields data (p + flen) (adv + flen)
            (pyInsert acc f.fieldType (.ip6 n)) rest
        else v9UnpackFields data (p + flen) adv acc rest
      else if flen = 16 then
        v9UnpackFields data (p + flen) (adv + flen)
          (pyInsert acc f.fieldType (.ip6 (beNat raw))) rest
      else v9UnpackFields data (p + flen) adv acc rest
    else
      v9UnpackFields data (p + flen) (adv + flen)
        (pyInsert acc f.fieldType (.num (beNat raw))) rest

/-- The record loop of `V9DataFlowSet.__init__` (`v9.py:228-263`): records
are read while `offset <= length - padding_size`; each record is unpacked
from exactly `w = struct_len` octets (struct.error otherwise) and the
offset advances by the per-field sum computed in `v9UnpackFields`.  The
source loop does not terminate when that advance is 0; the fuel models
this (`PyErr.nonTermination`). -/
def v9DataRecordLoop (data : List Nat) (length w : Nat)
    (fields : List V9TemplateField) (offset : Nat)
    (acc : List (PyDict V9Value)) (fuel : Nat) : Except PyErr (List (PyDict V9Value)) :=
  if offset ≤ length - v9PaddingSize length then
    match fuel with
    | 0 => .error .nonTermination
    | fuel + 1 =>
      if (pySlice data offset (offset + w)).length = w then
        let (rec, adv) := v9UnpackFields data offset 0 [] fields
        v9DataRecordLoop data length w fields (offset + adv) (acc ++ [rec]) fuel
      else .error .structError
  else .ok acc

/-- `v9.V9DataFlowSet.__init__`, returning
`(template_id, length, flows)`. -/
def v9DataFlowSet (data : List Nat) (t : V9TemplateRecord) :
    Except PyErr (Nat × Nat × List (PyDict V9Value)) := do
  let tid ← readBE data 0 2
  let length ← readBE data 2 2
  let w := (t.fields.map (·.fieldLength)).sum
  let flows ← v9DataRecordLoop data length w t.fields 4 [] (length + 1)
  .ok (tid, length, flows)

/-! ## netflow/ipfix.py: the IANA field-type and data-type tables

`IPFIXFieldTypes.iana_field_types` maps a field id to a `(name, type)`
pair.  Behaviourally relevant are the id -> data-type map (embedded below;
`.blank` is the empty type string of ids 0 and 97 and of the unnamed ids
416 and 419) and, for the v9 options-data path, whether the name string is
empty (ids 416 and 419 only).  Names themselves are unique per id and are
modelled by the id. -/

/-- The IANA data-type strings occurring in `iana_field_types`, plus
`float32` which appears in `IPFIXDataTypes.is_float`. -/
inductive IpfixType where
  | blank | u8 | u16 | u32 | u64 | s8 | s16 | s32 | s64 | f32 | f64
  | boolean | mac | str | dtSec | dtMilli | dtMicro | dtNano
  | ip4 | ip6 | octets | basicL | subTL | subTML
  deriving DecidableEq, Repr

/-- Entries 0-39 of `iana_field_types`. -/
def ipfixFieldTypeTable0 : List (Nat × IpfixType) := [
  (0, .blank), (1, .u64), (2, .u64), (3, .u64), (4, .u8), (5, .u8), (6, .u16), (7, .u16),
  (8, .ip4), (9, .u8), (10, .u32), (11, .u16), (12, .ip4), (13, .u8), (14, .u32), (15, .ip4),
  (16, .u32), (17, .u32), (18, .ip4), (19, .u64), (20, .u64), (21, .u32), (22, .u32),
  (23, .u64), (24, .u64), (25, .u64), (26, .u64), (27, .ip6), (28, .ip6), (29, .u8), (30, .u8),
  (31, .u32), (32, .u16), (33, .u8), (34, .u32), (35, .u8), (36, .u16), (37, .u16), (38, .u8),
  (39, .u8)]

/-- Entries 40-84 of `iana_field_types`. -/
def ipfixFieldTypeTable1 : List (Nat × IpfixType) := [
  (40, .u64), (41, .u64), (42, .u64), (43, .ip4), (44, .ip4), (45, .ip4), (46, .u8),
  (47, .ip4), (48, .u8), (49, .u8), (50, .u32), (51, .u8), (52, .u8), (53, .u8), (54, .u32),
  (55, .u8), (56, .mac), (57, .mac), (58, .u16), (59, .u16), (60, .u8), (61, .u8), (62, .ip6),
  (63, .ip6), (64, .u32), (70, .octets), (71, .octets), (72, .octets), (73, .octets),
  (74, .octets), (75, .octets), (76, .octets), (77, .octets), (78, .octets), (79, .octets),
  (80, .mac), (81, .mac), (82, .str), (83, .str), (84, .str)]

/-- Entries 85-147 of `iana_field_types`. -/
def ipfixFieldTypeTable2 : List (Nat × IpfixType) := [
  (85, .u64), (86, .u64), (87, .u32), (88, .u16), (89, .u8), (90, .octets), (91, .u8),
  (92, .u32), (93, .u32), (94, .str), (95, .octets), (96, .str), (97, .blank), (98, .u8),
  (99, .u32), (100, .str), (101, .u8), (102, .u16), (103, .u16), (104, .octets), (128, .u32),
  (129, .u32), (130, .ip4), (131, .ip6), (132, .u64), (133, .u64), (134, .u64), (135, .u64),
  (136, .u8), (137, .u64), (138, .u64), (139, .u16), (140, .ip6), (141, .u32), (142, .u32),
  (143, .u32), (144, .u32), (145, .u16), (146, .u8), (147, .str)]

/-- Entries 148-187 of `iana_field_types`. -/
def ipfixFieldTypeTable3 : List (Nat × IpfixType) := [
  (148, .u64), (149, .u32), (150, .dtSec), (151, .dtSec), (152, .dtMilli), (153, .dtMilli),
  (154, .dtMicro), (155, .dtMicro), (156, .dtNano), (157, .dtNano), (158, .u32), (159, .u32),
  (160, .dtMilli), (161, .u32), (162, .u32), (163, .u64), (164, .u64), (165, .u64),
  (166, .u64), (167, .u64), (168, .u64), (169, .ip6), (170, .ip6), (171, .u64), (172, .u64),
  (173, .u64), (174, .u64), (175, .u64), (176, .u8), (177, .u8), (178, .u8), (179, .u8),
  (180, .u16), (181, .u16), (182, .u16), (183, .u16), (184, .u32), (185, .u32), (186, .u16),
  (187, .u16)]

/-- Entries 188-227 of `iana_field_types`. -/
def ipfixFieldTypeTable4 : List (Nat × IpfixType) := [
  (188, .u8), (189, .u8), (190, .u16), (191, .u16), (192, .u8), (193, .u8), (194, .u32),
  (195, .u8), (196, .u8), (197, .u8), (198, .u64), (199, .u64), (200, .u8), (201, .u32),
  (202, .u32), (203, .u8), (204, .u32), (205, .u16), (206, .u8), (207, .u8), (208, .u32),
  (209, .u64), (210, .octets), (211, .ip4), (212, .ip6), (213, .u32), (214, .u8), (215, .u8),
  (216, .u16), (217, .u16), (218, .u64), (219, .u64), (220, .u64), (221, .u64), (222, .u64),
  (223, .u64), (224, .u64), (225, .ip4), (226, .ip4), (227, .u16)]

/-- Entries 228-267 of `iana_field_types`. -/
def ipfixFieldTypeTable5 : List (Nat × IpfixType) := [
  (228, .u16), (229, .u8), (230, .u8), (231, .u64), (232, .u64), (233, .u8), (234, .u32),
  (235, .u32), (236, .str), (237, .u8), (238, .u16), (239, .u8), (240, .u8), (241, .u16),
  (242, .u16), (243, .u16), (244, .u8), (245, .u16), (246, .u8), (247, .str), (248, .u8),
  (249, .u32), (250, .u16), (251, .u32), (252, .u32), (253, .u32), (254, .u16), (255, .u16),
  (256, .u16), (257, .u8), (258, .dtMilli), (259, .u16), (260, .dtSec), (261, .dtSec),
  (262, .octets), (263, .u8), (264, .dtSec), (265, .dtSec), (266, .octets), (267, .u8)]

/-- Entries 268-307 of `iana_field_types`. -/
def ipfixFieldTypeTable6 : List (Nat × IpfixType) := [
  (268, .dtMicro), (269, .dtMilli), (270, .dtNano), (271, .dtMicro), (272, .dtMilli),
  (273, .dtNano), (274, .octets), (275, .octets), (276, .boolean), (277, .u8), (278, .u32),
  (279, .u64), (280, .u64), (281, .ip6), (282, .ip6), (283, .u32), (284, .str), (285, .u16),
  (286, .u16), (287, .u16), (288, .str), (289, .str), (290, .str), (291, .basicL),
  (292, .subTL), (293, .subTML), (294, .u8), (295, .u32), (296, .u32), (297, .u8), (298, .u64),
  (299, .u64), (300, .str), (301, .u64), (302, .u64), (303, .u16), (304, .u16), (305, .u32),
  (306, .u32), (307, .u32)]

/-- Entries 308-347 of `iana_field_types`. -/
def ipfixFieldTypeTable7 : List (Nat × IpfixType) := [
  (308, .u32), (309, .u32), (310, .u32), (311, .f64), (312, .u16), (313, .octets),
  (314, .octets), (315, .octets), (316, .octets), (317, .octets), (318, .u64), (319, .u64),
  (320, .f64), (321, .f64), (322, .dtSec), (323, .dtMilli), (324, .dtMicro), (325, .dtNano),
  (326, .u64), (327, .u64), (328, .u64), (329, .u64), (330, .u64), (331, .u64), (332, .u64),
  (333, .boolean), (334, .u64), (335, .str), (336, .f64), (337, .f64), (338, .f64), (339, .u8),
  (340, .str), (341, .str), (342, .u64), (343, .u64), (344, .u8), (345, .u16), (346, .u32),
  (347, .octets)]

/-- Entries 348-387 of `iana_field_types`. -/
def ipfixFieldTypeTable8 : List (Nat × IpfixType) := [
  (348, .str), (349, .octets), (350, .str), (351, .u64), (352, .u64), (353, .u64), (354, .u64),
  (355, .u64), (356, .u64), (357, .u64), (358, .u64), (359, .dtMilli), (360, .dtMilli),
  (361, .u16), (362, .u16), (363, .u16), (364, .u16), (365, .mac), (366, .ip4), (367, .mac),
  (368, .u32), (369, .u32), (370, .u16), (371, .str), (372, .str), (373, .str), (374, .str),
  (375, .u64), (376, .u64), (377, .u64), (378, .u64), (379, .u64), (380, .u32), (381, .u32),
  (382, .u64), (383, .u64), (384, .u8), (385, .u32), (386, .u32), (387, .u32)]

/-- Entries 388-427 of `iana_field_types`. -/
def ipfixFieldTypeTable9 : List (Nat × IpfixType) := [
  (388, .boolean), (389, .boolean), (390, .u16), (391, .u64), (392, .u64), (393, .u64),
  (394, .u64), (395, .u64), (396, .u64), (397, .u64), (398, .u64), (399, .u64), (400, .u16),
  (401, .u64), (402, .u64), (403, .ip4), (404, .ip6), (405, .u32), (406, .u32), (407, .u64),
  (408, .u16), (409, .u16), (410, .u16), (411, .octets), (412, .u32), (413, .u8), (414, .mac),
  (415, .mac), (416, .blank), (417, .u64), (418, .u64), (419, .blank), (420, .u64),
  (421, .u64), (422, .u64), (423, .u64), (424, .u64), (425, .u64), (426, .u64), (427, .u64)]

/-- Entries 428-467 of `iana_field_types`. -/
def ipfixFieldTypeTable10 : List (Nat × IpfixType) := [
  (428, .u64), (429, .u64), (430, .u64), (431, .u64), (432, .ip4), (433, .u64), (434, .s32),
  (435, .octets), (436, .octets), (437, .octets), (438, .ip4), (439, .u64), (440, .u32),
  (441, .u32), (442, .u32), (443, .subTL), (444, .subTL), (445, .octets), (446, .u32),
  (447, .u64), (448, .u8), (449, .octets), (450, .str), (451, .str), (452, .str), (453, .str),
  (454, .str), (455, .str), (456, .str), (457, .u16), (458, .u16), (459, .str), (460, .str),
  (461, .str), (462, .str), (463, .u32), (464, .octets), (465, .octets), (466, .u32),
  (467, .u32)]

/-- Entries 468-491 of `iana_field_types`. -/
def ipfixFieldTypeTable11 : List (Nat × IpfixType) := [
  (468, .str), (469, .str), (470, .str), (471, .u32), (472, .u32), (473, .u32), (474, .u32),
  (475, .u32), (476, .u32), (477, .u32), (478, .u32), (479, .u32), (480, .u32), (481, .u32),
  (482, .octets), (483, .u32), (484, .basicL), (485, .basicL), (486, .octets), (487, .basicL),
  (488, .basicL), (489, .octets), (490, .basicL), (491, .basicL)]

/-- The `(id, data-type)` projection of `iana_field_types`
(`ipfix.py:23-488`), in table order (concatenated in chunks). -/
def ipfixFieldTypeTable : List (Nat × IpfixType) :=
  ipfixFieldTypeTable0 ++ ipfixFieldTypeTable1 ++ ipfixFieldTypeTable2 ++ ipfixFieldTypeTable3 ++ ipfixFieldTypeTable4 ++ ipfixFieldTypeTable5 ++ ipfixFieldTypeTable6 ++ ipfixFieldTypeTable7 ++ ipfixFieldTypeTable8 ++ ipfixFieldTypeTable9 ++ ipfixFieldTypeTable10 ++ ipfixFieldTypeTable11

/-- `IPFIXFieldTypes.by_id`: first table entry with the given id. -/
def ipfixById (id : Nat) : Option IpfixType :=
  pyGet ipfixFieldTypeTable id

/-- Ids whose table entry has an empty name string ("", ""): 416 and
419. -/
def ipfixNameEmpty (id : Nat) : Bool :=
  id = 416 || id = 419

/-- `IPFIXDataTypes.is_signed`. -/
def IpfixType.isSigned : IpfixType → Bool
  | .s8 | .s16 | .s32 | .s64 => true
  | _ => false

/-- `IPFIXDataTypes.is_float`. -/
def IpfixType.isFloat : IpfixType → Bool
  | .f32 | .f64 => true
  | _ => false

/-- `IPFIXDataTypes.is_bytes`: octetArray, string, macAddress,
ipv4Address, ipv6Address, dateTimeMicroseconds, dateTimeNanoseconds. -/
def IpfixType.isBytes : IpfixType → Bool
  | .octets | .str | .mac | .ip4 | .ip6 | .dtMicro | .dtNano => true
  | _ => false


/-! ## netflow/v9.py: options data flowsets, header and the export packet -/

/-- A value of a v9 options data record: integer or raw bytes. -/
inductive V9OptValue where
  | num (n : Nat)
  | raw (bs : List Nat)
  deriving DecidableEq, Repr

/-- One record of a `V9OptionsDataFlowset` (scopes keyed by scope type,
option data keyed by field type; the source keys by the corresponding
unique name strings). -/
structure V9OptRecord where
  scopes : PyDict Nat
  data : PyDict V9OptValue
  deriving DecidableEq, Repr

/-- The scope loop of `V9OptionsDataFlowset.__init__` (`v9.py:400-404`):
`int.from_bytes` of each scope slice (short slices near the stream end
yield the integer of the remaining bytes, as in Python). -/
def v9ScopeFold (data : List Nat) (off : Nat) (acc : PyDict Nat) :
    List (Nat × Nat) → PyDict Nat × Nat
  | [] => (acc, off)
  | (st, l) :: rest =>
    v9ScopeFold data (off + l) (pyInsert acc st (beNat (pySlice data off (off + l)))) rest

/-- The option loop of `V9OptionsDataFlowset.__init__` (`v9.py:406-427`):
a field type known to `V9_FIELD_TYPES` is decoded as an integer; otherwise
the IANA IPFIX table decides between raw bytes and integer, an absent or
unnamed entry raising `ValueError`. -/
def v9OptionFold (data : List Nat) (off : Nat) (acc : PyDict V9OptValue) :
    List (Nat × Nat) → Except PyErr (PyDict V9OptValue × Nat)
  | [] => .ok (acc, off)
  | (ft, l) :: rest =>
    if v9FieldTypeKnown ft then
      v9OptionFold data (off + l)
        (pyInsert acc ft (.num (beNat (pySlice data off (off + l))))) rest
    else
      match ipfixById ft with
      | some ty =>
        if ipfixNameEmpty ft then .error .valueError
        else
          let v := if ty.isBytes then V9OptValue.raw (pySlice data off (off + l))
                   else .num (beNat (pySlice data off (off + l)))
          v9OptionFold data (off + l) (pyInsert acc ft v) rest
      | none => .error .valueError

/-- The record loop of `V9OptionsDataFlowset.__init__` (`v9.py:397-432`),
with the 2-octet padding step; like the data-record loop it does not
terminate when a record consumes no octets (fuel). -/
def v9OptionsDataLoop (data : List Nat) (length : Nat)
    (t : V9OptionsTemplateRecord) (offset : Nat) (acc : List V9OptRecord)
    (fuel : Nat) : Except PyErr (List V9OptRecord) :=
  if offset < length then
    match fuel with
    | 0 => .error .nonTermination
    | fuel + 1 =>
      let (scopes, off1) := v9ScopeFold data offset [] t.scopeFields
      match v9OptionFold data off1 [] t.optionFields with
      | .error e => .error e
      | .ok (opts, off2) =>
        let off3 := if off2 % 4 = 2 then off2 + 2 else off2
        v9OptionsDataLoop data length t off3 (acc ++ [⟨scopes, opts⟩]) fuel
  else .ok acc

/-- `v9.V9OptionsDataFlowset.__init__`, returning
`(template_id, length, option_data_records)`. -/
def v9OptionsDataFlowSet (data : List Nat) (t : V9OptionsTemplateRecord) :
    Except PyErr (Nat × Nat × List V9OptRecord) := do
  let tid ← readBE data 0 2
  let length ← readBE data 2 2
  let recs ← v9OptionsDataLoop data length t 4 [] (length + 1)
  .ok (tid, length, recs)

/-- Header of `V9ExportPacket`
(`struct.unpack('!HHIIII', data[:20])`). -/
structure V9Header where
  version : Nat
  count : Nat
  uptime : Nat
  timestamp : Nat
  sequence : Nat
  sourceId : Nat
  deriving DecidableEq, Repr

/-- `v9.V9Header.__init__`. -/
def v9ParseHeader (data : List Nat) : Except PyErr V9Header :=
  if (pySlice data 0 20).length = 20 then
    .ok { version := beNat (pySlice data 0 2)
          count := beNat (pySlice data 2 4)
          uptime := beNat (pySlice data 4 8)
          timestamp := beNat (pySlice data 8 12)
          sequence := beNat (pySlice data 12 16)
          sourceId := beNat (pySlice data 16 20) }
  else .error .structError

/-- The mutable locals of the flowset walk of `V9ExportPacket.__init__`:
the (aliased, in-place mutated) template store, the `_new_templates` flag,
the accumulated flows and options records, and the offsets of skipped
flowsets. -/
structure V9WalkState where
  templates : PyDict V9Template
  flag : Bool
  flows : List (PyDict V9Value)
  options : List V9OptRecord
  skipped : List Nat
  deriving DecidableEq, Repr

/-- Template registration loop (`v9.py:524-527`): for each parsed
template, the `_new_templates` flag is set when its id is not yet in the
store, and the store is updated unconditionally. -/
def v9RegisterTemplates (store : PyDict V9Template) (flag : Bool)
    (tpls : PyDict V9TemplateRecord) : PyDict V9Template × Bool :=
  tpls.foldl
    (fun sf p => (pyInsert sf.1 p.1 (.record p.2), sf.2 || !pyContains sf.1 p.1))
    (store, flag)

/-- Options-template registration loop (`v9.py:536-539`). -/
def v9RegisterOptions (store : PyDict V9Template) (flag : Bool)
    (tpls : PyDict V9OptionsTemplateRecord) : PyDict V9Template × Bool :=
  tpls.foldl
    (fun sf p => (pyInsert sf.1 p.1 (.options p.2), sf.2 || !pyContains sf.1 p.1))
    (store, flag)

/-- The flowset walk of `V9ExportPacket.__init__` (`v9.py:515-572`),
`while offset != len(data)`.  Errors carry the template store at the time
they are raised (the caller's dict is mutated in place).  The fuel-out
marker `walkFuelOut` is specific to this loop; the development proves it
is never reached for fuel `len(data) + 2`. -/
def v9Walk (data : List Nat) (offset : Nat) (st : V9WalkState) (fuel : Nat) :
    Except (PyErr × PyDict V9Template) V9WalkState :=
  if offset = data.length then .ok st
  else
    match fuel with
    | 0 => .error (.walkFuelOut, st.templates)
    | fuel + 1 =>
      match readBE data offset 2, readBE data (offset + 2) 2 with
      | .ok fsId, .ok fsLen =>
        if fsId = 0 then
          match v9TemplateFlowSet (pyDrop data offset) with
          | .error e => .error (e, st.templates)
          | .ok (_, tfsLen, tpls) =>
            let sf := v9RegisterTemplates st.templates st.flag tpls
            let st := { st with templates := sf.1, flag := sf.2 }
            if tfsLen = 0 then .ok st
            else v9Walk data (offset + tfsLen) st fuel
        else if fsId = 1 then
          match v9OptionsTemplateFlowSet (pyDrop data offset) with
          | .error e => .error (e, st.templates)
          | .ok (_, otfsLen, tpls) =>
            let sf := v9RegisterOptions st.templates st.flag tpls
            let st := { st with templates := sf.1, flag := sf.2 }
            if otfsLen = 0 then .ok st
            else v9Walk data (offset + otfsLen) st fuel
        else
          match pyGet st.templates fsId with
          | none =>
            let st := { st with skipped := st.skipped ++ [offset] }
            if fsLen = 0 then .ok st
            else v9Walk data (offset + fsLen) st fuel
          | some (.record t) =>
            match v9DataFlowSet (pyDrop data offset) t with
            | .error e => .error (e, st.templates)
            | .ok (_, dfsLen, flows) =>
              let st := { st with flows := st.flows ++ flows }
              if dfsLen = 0 then .ok st
              else v9Walk data (offset + dfsLen) st fuel
          | some (.options o) =>
            match v9OptionsDataFlowSet (pyDrop data offset) o with
            | .error e => .error (e, st.templates)
            | .ok (_, odfsLen, recs) =>
              let st := { st with options := st.options ++ recs }
              if odfsLen = 0 then .ok st
              else v9Walk data (offset + odfsLen) st fuel
      | _, _ => .error (.structError, st.templates)

/-- The second pass of `V9ExportPacket.__init__` (`v9.py:576-592`):
re-parse the flowsets skipped in the walk, raising
`V9TemplateNotRecognized` when a template is still missing. -/
def v9Reprocess (data : List Nat) (store : PyDict V9Template)
    (flows : List (PyDict V9Value)) (options : List V9OptRecord) :
    List Nat → Except (PyErr × PyDict V9Template) (List (PyDict V9Value) × List V9OptRecord)
  | [] => .ok (flows, options)
  | off :: rest =>
    match readBE data off 2 with
    | .error e => .error (e, store)
    | .ok fsId =>
      match pyGet store fsId with
      | none => .error (.v9TemplateNotRecognized, store)
      | some (.record t) =>
        match v9DataFlowSet (pyDrop data off) t with
        | .error e => .error (e, store)
        | .ok (_, _, fl) => v9Reprocess data store (flows ++ fl) options rest
      | some (.options o) =>
        match v9OptionsDataFlowSet (pyDrop data off) o with
        | .error e => .error (e, store)
        | .ok (_, _, recs) => v9Reprocess data store flows (options ++ recs) rest

/-- A parsed `V9ExportPacket` (`templates` is the store object the caller
passed in, mutated in place). -/
structure V9Packet where
  header : V9Header
  templates : PyDict V9Template
  newTemplates : Bool
  flows : List (PyDict V9Value)
  options : List V9OptRecord
  deriving DecidableEq, Repr

/-- `v9.V9ExportPacket.__init__` (`v9.py:505-595`).  The error component
carries the caller's template store, mutated in place up to the point of
the exception. -/
def v9ExportPacket (data : List Nat) (templates : PyDict V9Template) :
    Except (PyErr × PyDict V9Template) V9Packet :=
  match v9ParseHeader data with
  | .error e => .error (e, templates)
  | .ok h =>
    match v9Walk data 20 ⟨templates, false, [], [], []⟩ (data.length + 2) with
    | .error es => .error es
    | .ok st =>
      if st.skipped = [] then .ok ⟨h, st.templates, st.flag, st.flows, st.options⟩
      else if st.flag then
        match v9Reprocess data st.templates st.flows st.options st.skipped with
        | .error es => .error es
        | .ok (fl, op) => .ok ⟨h, st.templates, st.flag, fl, op⟩
      else .error (.v9TemplateNotRecognized, st.templates)


/-! ## netflow/ipfix.py: records, sets and the export packet -/

/-- A template field specifier: `TemplateField` or
`TemplateFieldEnterprise`. -/
inductive IpfixField where
  | std (id length : Nat)
  | ent (id length enterpriseNumber : Nat)
  deriving DecidableEq, Repr

/-- The `id` member. -/
def IpfixField.fid : IpfixField → Nat
  | .std i _ => i
  | .ent i _ _ => i

/-- The `length` member. -/
def IpfixField.flen : IpfixField → Nat
  | .std _ l => l
  | .ent _ l _ => l

/-- `pack[0] & ~(1 << 15)`: clear the enterprise flag bit of a 16-bit
field id. -/
def pyClearBit15 (x : Nat) : Nat :=
  if x.testBit 15 then x - 32768 else x

/-- `ipfix.parse_fields` (`ipfix.py:987-1017`): `count` field specifiers,
8 octets for an enterprise field (first octet has the high bit set), 4
otherwise; `data[offset]` past the end raises `IndexError`.  Returns the
fields and the final offset. -/
def parseFields (data : List Nat) (offset : Nat) (acc : List IpfixField) :
    Nat → Except PyErr (List IpfixField × Nat)
  | 0 => .ok (acc, offset)
  | n + 1 =>
    match pyDrop data offset with
    | [] => .error .indexError
    | b :: _ =>
      if b.land 128 ≠ 0 then do
        let id0 ← readBE data offset 2
        let len ← readBE data (offset + 2) 2
        let en ← readBE data (offset + 4) 4
        parseFields data (offset + 8) (acc ++ [.ent (pyClearBit15 id0) len en]) n
      else do
        let id0 ← readBE data offset 2
        let len ← readBE data (offset + 2) 2
        parseFields data (offset + 4) (acc ++ [.std id0 len]) n

/-- `ipfix.IPFIXTemplateRecord` (id, declared field count, fields, record
length in octets). -/
structure IpfixTemplateRecord where
  templateId : Nat
  fieldCount : Nat
  fields : List IpfixField
  length : Nat
  deriving DecidableEq, Repr

/-- `ipfix.IPFIXTemplateRecord.__init__`. -/
def ipfixTemplateRecord (data : List Nat) : Except PyErr IpfixTemplateRecord := do
  let tid ← readBE data 0 2
  let fcount ← readBE data 2 2
  let (fields, off) ← parseFields data 4 [] fcount
  if fields.length ≠ fcount then .error .ipfixMalformedRecord
  else .ok ⟨tid, fcount, fields, off⟩

/-- `ipfix.IPFIXOptionsTemplateRecord` (scope fields first). -/
structure IpfixOptionsTemplateRecord where
  templateId : Nat
  fieldCount : Nat
  scopeFieldCount : Nat
  scopeFields : List IpfixField
  fields : List IpfixField
  length : Nat
  deriving DecidableEq, Repr

/-- `ipfix.IPFIXOptionsTemplateRecord.__init__`.  In Python
`field_count - scope_field_count` below zero gives an empty `range`; the
truncated subtraction models that, and the subsequent count check raises
`IPFIXMalformedRecord` exactly as the source does. -/
def ipfixOptionsTemplateRecord (data : List Nat) :
    Except PyErr IpfixOptionsTemplateRecord := do
  let tid ← readBE data 0 2
  let fcount ← readBE data 2 2
  let scount ← readBE data 4 2
  let (sfields, off1) ← parseFields data 6 [] scount
  if sfields.length ≠ scount then .error .ipfixMalformedRecord
  else do
    let (ofields, off2) ← parseFields data off1 [] (fcount - scount)
    if ofields.length + sfields.length ≠ fcount then .error .ipfixMalformedRecord
    else .ok ⟨tid, fcount, scount, sfields, ofields, off2⟩

/-- A decoded IPFIX data-record value.  Floating-point fields keep their
raw octets (their IEEE value is not modelled); `string` fields keep the
raw octets of the string; `dt` is the two-integer decoding of
dateTimeMicroseconds and dateTimeNanoseconds. -/
inductive IpfixValue where
  | num (n : Nat)
  | sint (n : Int)
  | f32raw (bs : List Nat)
  | f64raw (bs : List Nat)
  | strv (bs : List Nat)
  | dt (sec frac : Nat)
  deriving DecidableEq, Repr

/-- Two's-complement reading of an `l`-octet big-endian signed integer. -/
def toSigned (n l : Nat) : Int :=
  if n < 2 ^ (8 * l - 1) then (n : Int) else (n : Int) - 2 ^ (8 * l)

/-- The unpacker-building loop of `IPFIXDataRecord.__init__`
(`ipfix.py:726-762`): validates every field of the template against the
IANA table and the struct-format dispatch, before any data is touched.
An id absent from the table raises `NotImplementedError` for a plain
field and `AttributeError` (`None.type`) for an enterprise field; a
non-bytes data type with a length outside {1, 2, 4, 8} raises
`IPFIXTemplateError`. -/
def ipfixBuildSpecs : List IpfixField → Except PyErr (List (IpfixField × IpfixType))
  | [] => .ok []
  | f :: rest =>
    match ipfixById f.fid, f with
    | none, .std _ _ => .error .notImplementedError
    | none, .ent _ _ _ => .error .attributeError
    | some ty, _ =>
      if ty.isBytes then do
        let specs ← ipfixBuildSpecs rest
        .ok ((f, ty) :: specs)
      else if f.flen = 1 || f.flen = 2 || f.flen = 4 || f.flen = 8 then do
        let specs ← ipfixBuildSpecs rest
        .ok ((f, ty) :: specs)
      else .error .ipfixTemplateError

/-- The value-conversion loop of `IPFIXDataRecord.__init__`
(`ipfix.py:768-787`), reading each field's octets at its struct offset. -/
def ipfixConvert (data : List Nat) (pos : Nat) :
    List (IpfixField × IpfixType) → List (Nat × IpfixValue)
  | [] => []
  | (f, ty) :: rest =>
    let raw := pySlice data pos (pos + f.flen)
    let v : IpfixValue :=
      if ty.isBytes then
        match ty with
        | .str => .strv raw
        | .dtMicro | .dtNano => .dt (beNat (raw.take 4)) (beNat (raw.drop 4))
        | _ => .num (beNat raw)
      else if ty.isSigned then .sint (toSigned (beNat raw) f.flen)
      else if ty.isFloat then
        if f.flen = 4 then .f32raw raw
        else if f.flen = 8 then .f64raw raw
        else .num (beNat raw)
      else .num (beNat raw)
    (f.fid, v) :: ipfixConvert data (pos + f.flen) rest

/-- `ipfix.IPFIXDataRecord.__init__`: specs are validated first, then the
record's octets are unpacked (struct.error when fewer octets than the
record width are available).  Returns the `(id, value)` pairs (the source
collects them in a Python set) and the record length. -/
def ipfixDataRecord (data : List Nat) (template : List IpfixField) :
    Except PyErr (List (Nat × IpfixValue) × Nat) := do
  let specs ← ipfixBuildSpecs template
  let total := (template.map (·.flen)).sum
  if data.length < total then .error .structError
  else .ok (ipfixConvert data 0 specs, total)

/-- `ipfix.rest_is_padding_zeroes` (`ipfix.py:1020-1028`). -/
def restIsPaddingZeroes (data : List Nat) (offset : Nat) : Except PyErr Bool :=
  if offset ≤ data.length then .ok (decide ((pyDrop data offset).sum = 0))
  else .error .valueError

/-- `ipfix.IPFIXSetHeader.__init__`: forbidden set ids {0, 1} and
[4, 255] raise `IPFIXRFCError`; returns `(set_id, length)`. -/
def ipfixSetHeader (data : List Nat) : Except PyErr (Nat × Nat) := do
  let sid ← readBE data 0 2
  let len ← readBE data 2 2
  if sid = 0 || sid = 1 || (4 ≤ sid && sid ≤ 255) then .error .ipfixRFCError
  else .ok (sid, len)

/-- One record of an `IPFIXSet`. -/
inductive IpfixRecord where
  | tpl (r : IpfixTemplateRecord)
  | opts (r : IpfixOptionsTemplateRecord)
  | data (fields : List (Nat × IpfixValue))
  deriving DecidableEq, Repr

/-- The IPFIX template store: `template_id -> fields`, with `none` the
transient withdrawal marker the source stores for a zero-field record. -/
abbrev IpfixStore := PyDict (Option (List IpfixField))

/-- A parsed `IPFIXSet`. -/
structure IpfixSet where
  setId : Nat
  length : Nat
  records : List IpfixRecord
  templates : IpfixStore
  deriving DecidableEq, Repr

/-- The record loop of an IPFIX template set (`ipfix.py:816-835`),
including the trailing-padding break (remaining space of at most 16
octets that is all zeroes). -/
def ipfixTemplateSetLoop (data : List Nat) (length offset : Nat)
    (recs : List IpfixRecord) (tpls : IpfixStore)
    (fuel : Nat) : Except PyErr (List IpfixRecord × IpfixStore) :=
  if offset < length then
    match fuel with
    | 0 => .error .nonTermination
    | fuel + 1 =>
      match ipfixTemplateRecord (pyDrop data offset) with
      | .error e => .error e
      | .ok r =>
        let recs := recs ++ [.tpl r]
        let tpls := pyInsert tpls r.templateId
          (if r.fieldCount = 0 then none else some r.fields)
        let offset := offset + r.length
        if offset ≠ length && length - offset ≤ 16 then
          match restIsPaddingZeroes (pySlice data 0 length) offset with
          | .error e => .error e
          | .ok true => .ok (recs, tpls)
          | .ok false => ipfixTemplateSetLoop data length offset recs tpls fuel
        else ipfixTemplateSetLoop data length offset recs tpls fuel
  else .ok (recs, tpls)

/-- The record loop of an IPFIX options template set
(`ipfix.py:837-856`). -/
def ipfixOptionsTemplateSetLoop (data : List Nat) (length offset : Nat)
    (recs : List IpfixRecord) (tpls : IpfixStore)
    (fuel : Nat) : Except PyErr (List IpfixRecord × IpfixStore) :=
  if offset < length then
    match fuel with
    | 0 => .error .nonTermination
    | fuel + 1 =>
      match ipfixOptionsTemplateRecord (pyDrop data offset) with
      | .error e => .error e
      | .ok r =>
        let recs := recs ++ [.opts r]
        let tpls := pyInsert tpls r.templateId
          (if r.fieldCount = 0 then none else some (r.scopeFields ++ r.fields))
        let offset := offset + r.length
        if offset ≠ length && length - offset ≤ 16 then
          match restIsPaddingZeroes (pySlice data 0 length) offset with
          | .error e => .error e
          | .ok true => .ok (recs, tpls)
          | .ok false => ipfixOptionsTemplateSetLoop data length offset recs tpls fuel
        else ipfixOptionsTemplateSetLoop data length offset recs tpls fuel
  else .ok (recs, tpls)

/-- The record loop of an IPFIX data set (`ipfix.py:876-879`): records
are read while `offset < no_padding_last_offset`. -/
def ipfixDataSetLoop (data : List Nat) (npno : Int)
    (fields : List IpfixField) (offset : Nat) (recs : List IpfixRecord)
    (fuel : Nat) : Except PyErr (List IpfixRecord × Nat) :=
  if (offset : Int) < npno then
    match fuel with
    | 0 => .error .nonTermination
    | fuel + 1 =>
      match ipfixDataRecord (pyDrop data offset) fields with
      | .error e => .error e
      | .ok (vals, rlen) =>
        ipfixDataSetLoop data npno fields (offset + rlen) (recs ++ [.data vals]) fuel
  else .ok (recs, offset)

/-- `ipfix.IPFIXSet.__init__` (`ipfix.py:809-888`): template sets
(set id 2), options template sets (3), data sets (id at least 256,
looked up in the store; an absent, withdrawn or empty entry raises
`IPFIXTemplateNotRecognized`; a zero record width raises
`ZeroDivisionError` in the padding arithmetic), with the padding safety
check of the data branch. -/
def ipfixSet (data : List Nat) (templates : IpfixStore) :
    Except PyErr IpfixSet := do
  let (sid, length) ← ipfixSetHeader data
  if sid = 2 then do
    let (recs, tpls) ← ipfixTemplateSetLoop data length 4 [] [] (length + 1)
    .ok ⟨sid, length, recs, tpls⟩
  else if sid = 3 then do
    let (recs, tpls) ← ipfixOptionsTemplateSetLoop data length 4 [] [] (length + 1)
    .ok ⟨sid, length, recs, tpls⟩
  else if 256 ≤ sid then
    match pyGet templates sid with
    | none => .error .ipfixTemplateNotRecognized
    | some none => .error .ipfixTemplateNotRecognized
    | some (some fields) =>
      if fields = [] then .error .ipfixTemplateNotRecognized
      else
        let d := (fields.map (·.flen)).sum
        if d = 0 then .error .zeroDivisionError
        else do
          let npno : Int := (length : Int) - ((length : Int) - 4).emod (d : Int)
          let (recs, offset) ← ipfixDataSetLoop data npno fields 4 [] (length + 1)
          if offset ≠ length then
            match restIsPaddingZeroes (pySlice data 0 length) offset with
            | .error e => .error e
            | .ok true => .ok ⟨sid, length, recs, []⟩
            | .ok false => .error .paddingCalculationError
          else .ok ⟨sid, length, recs, []⟩
  else .ok ⟨sid, length, [], []⟩

/-- `new_set.is_template`: set id 2 or 3. -/
def IpfixSet.isTemplate (s : IpfixSet) : Bool :=
  s.setId = 2 || s.setId = 3

/-- `new_set.is_data`: set id at least 256. -/
def IpfixSet.isData (s : IpfixSet) : Bool :=
  256 ≤ s.setId

/-- The template-withdrawal loop of `IPFIXExportPacket.__init__`
(`ipfix.py:955-958`): `del` of a dict entry while iterating over
`items()`.  In CPython a deletion invalidates the iterator, so the
following `next()` call raises `RuntimeError('dictionary changed size
during iteration')`: the first `None`-valued entry is removed and the
loop raises; without `None` values the loop is a no-op. -/
def ipfixWithdrawLoop : IpfixStore → IpfixStore × Option PyErr
  | [] => ([], none)
  | (_, none) :: rest => (rest, some .runtimeError)
  | (k, some v) :: rest =>
    let (r, e) := ipfixWithdrawLoop rest
    ((k, some v) :: r, e)

/-- Header of `IPFIXExportPacket`
(`struct.unpack('!HHIII', data[:16])`). -/
structure IpfixHeader where
  version : Nat
  length : Nat
  exportUptime : Nat
  sequenceNumber : Nat
  observationDomainId : Nat
  deriving DecidableEq, Repr

/-- `ipfix.IPFIXHeader.__init__`. -/
def ipfixParseHeader (data : List Nat) : Except PyErr IpfixHeader :=
  if (pySlice data 0 16).length = 16 then
    .ok { version := beNat (pySlice data 0 2)
          length := beNat (pySlice data 2 4)
          exportUptime := beNat (pySlice data 4 8)
          sequenceNumber := beNat (pySlice data 8 12)
          observationDomainId := beNat (pySlice data 12 16) }
  else .error .structError

/-- A parsed `IPFIXExportPacket`. -/
structure IpfixPacket where
  header : IpfixHeader
  templates : IpfixStore
  newTemplates : Bool
  flows : List IpfixRecord
  sets : List IpfixSet
  deriving DecidableEq, Repr

/-- The set walk of `IPFIXExportPacket.__init__` (`ipfix.py:947-963`),
`while offset < self.header.length`.  A template set raises the flag and
merges its templates into the store (running the withdrawal loop); a data
set appends its records to the flows.  A set of declared length 0 makes
the source loop spin forever (fuel).  Errors carry the in-place mutated
store. -/
def ipfixWalk (data : List Nat) (hlen offset : Nat) (templates : IpfixStore)
    (flag : Bool) (flows : List IpfixRecord) (sets : List IpfixSet) (fuel : Nat) :
    Except (PyErr × IpfixStore) (Nat × IpfixStore × Bool × List IpfixRecord × List IpfixSet) :=
  if offset < hlen then
    match fuel with
    | 0 => .error (.nonTermination, templates)
    | fuel + 1 =>
      match ipfixSet (pyDrop data offset) templates with
      | .error e => .error (e, templates)
      | .ok s =>
        if s.isTemplate then
          match ipfixWithdrawLoop (pyUpdate templates s.templates) with
          | (store, some e) => .error (e, store)
          | (store, none) =>
            ipfixWalk data hlen (offset + s.length) store true flows (sets ++ [s]) fuel
        else if s.isData then
          ipfixWalk data hlen (offset + s.length) templates flag
            (flows ++ s.records) (sets ++ [s]) fuel
        else
          ipfixWalk data hlen (offset + s.length) templates flag flows (sets ++ [s]) fuel
  else .ok (offset, templates, flag, flows, sets)

/-- `ipfix.IPFIXExportPacket.__init__` (`ipfix.py:939-967`). -/
def ipfixExportPacket (data : List Nat) (templates : IpfixStore) :
    Except (PyErr × IpfixStore) IpfixPacket :=
  match ipfixParseHeader data with
  | .error e => .error (e, templates)
  | .ok h =>
    match ipfixWalk data h.length 16 templates false [] [] (h.length + 1) with
    | .error es => .error es
    | .ok (offset, store, flag, flows, sets) =>
      if offset ≠ h.length then .error (.ipfixMalformedPacket, store)
      else .ok ⟨h, store, flag, flows, sets⟩


/-! ## netflow/utils.py -/

/-- ASCII code of a hexadecimal digit character. -/
def isHexDigit (b : Nat) : Bool :=
  (48 ≤ b && b ≤ 57) || (97 ≤ b && b ≤ 102) || (65 ≤ b && b ≤ 70)

/-- Value of a hexadecimal digit character. -/
def hexVal (b : Nat) : Nat :=
  if b ≤ 57 then b - 48 else if b ≤ 70 then b - 55 else b - 87

/-- `bytes.fromhex` on a sequence of character codes: pairs of hex digits;
anything else raises `ValueError`.  (CPython additionally skips ASCII
spaces between pairs; inputs with whitespace are not considered here.) -/
def pyFromhex : List Nat → Except PyErr (List Nat)
  | [] => .ok []
  | [_] => .error .valueError
  | b1 :: b2 :: rest =>
    if isHexDigit b1 && isHexDigit b2 then do
      let r ← pyFromhex rest
      .ok ((hexVal b1 * 16 + hexVal b2) :: r)
    else .error .valueError

/-- Classify a UTF-8 lead octet: `none` for an invalid lead
(a continuation octet, the overlong leads 0xC0/0xC1, or 0xF5-0xFF),
otherwise the number of continuation octets and the admissible range of
the first one (the CPython decoder rejects overlong forms, surrogates and
code points above U+10FFFF through these ranges). -/
def utf8Need (b : Nat) : Option (Nat × Nat × Nat) :=
  if b < 128 then some (0, 0, 0)
  else if 194 ≤ b && b ≤ 223 then some (1, 128, 191)
  else if b = 224 then some (2, 160, 191)
  else if (225 ≤ b && b ≤ 236) || b = 238 || b = 239 then some (2, 128, 191)
  else if b = 237 then some (2, 128, 159)
  else if b = 240 then some (3, 144, 191)
  else if 241 ≤ b && b ≤ 243 then some (3, 128, 191)
  else if b = 244 then some (3, 128, 143)
  else none

/-- One-octet-at-a-time UTF-8 validation: `n` pending continuation octets,
the next one constrained to `[lo, hi]` (later ones to `[128, 191]`). -/
def utf8Run : List Nat → Nat → Nat → Nat → Bool
  | [], 0, _, _ => true
  | [], _ + 1, _, _ => false
  | b :: rest, 0, _, _ =>
    match utf8Need b with
    | none => false
    | some (n, lo, hi) => utf8Run rest n lo hi
  | c :: rest, _n + 1, lo, hi =>
    if lo ≤ c && c ≤ hi then utf8Run rest _n 128 191 else false

/-- Does `bytes.decode()` (strict UTF-8) succeed on this octet
sequence? -/
def pyUtf8Decodable (l : List Nat) : Bool := utf8Run l 0 0 0

/-- The input of `utils.parse_packet`: a `str` (its character codes) or
`bytes`. -/
inductive PacketInput where
  | str (chars : List Nat)
  | bytes (data : List Nat)
  deriving DecidableEq, Repr

/-- The input normalisation of `utils.parse_packet` (`utils.py:69-80`):
a `str` is hex-decoded; `bytes` are UTF-8-decoded and then hex-decoded,
falling back to the raw bytes only when the UTF-8 decode fails
(`UnicodeDecodeError`) - a `ValueError` from `bytes.fromhex` is NOT
caught and propagates.  (A decodable input containing an octet above
0x7F decodes to a character that is not a hex digit, so running
`pyFromhex` directly on the octets raises `ValueError` exactly as the
source does on the decoded string.) -/
def parsePacketNormalize : PacketInput → Except PyErr (List Nat)
  | .str s => pyFromhex s
  | .bytes d => if pyUtf8Decodable d then pyFromhex d else .ok d

/-- The two template stores of the collector's `templates` dict
(`{"netflow": {}, "ipfix": {}}`).  The source's handling of a missing
key (which installs a list, not a dict) and of `templates=None` is not
exercised by the collector and is not modelled: both stores are always
present. -/
structure ParseStores where
  netflow : PyDict V9Template
  ipfix : IpfixStore
  deriving DecidableEq, Repr

/-- The union result type of `utils.parse_packet`. -/
inductive ParsedExport where
  | v1p (p : V1Packet)
  | v5p (p : V5Packet)
  | v9p (p : V9Packet)
  | ipfixp (p : IpfixPacket)
  deriving DecidableEq, Repr

/-- `export.header.version`, as the collector reads it. -/
def ParsedExport.headerVersion : ParsedExport → Nat
  | .v1p p => p.header.version
  | .v5p p => p.header.version
  | .v9p p => p.header.version
  | .ipfixp p => p.header.version

/-- `export.contains_new_templates` (only read by the collector after
checking the version is 9 or 10). -/
def ParsedExport.containsNewTemplates : ParsedExport → Bool
  | .v9p p => p.newTemplates
  | .ipfixp p => p.newTemplates
  | _ => false

/-- The version dispatch of `utils.parse_packet` (`utils.py:82-101`) on
already-normalised octets.  The stores are returned alongside the result
because v9/IPFIX parsing mutates them in place even when it raises. -/
def parsePacketDispatch (data : List Nat) (stores : ParseStores) :
    ParseStores × Except PyErr ParsedExport :=
  match readBE data 0 2 with
  | .error e => (stores, .error e)
  | .ok version =>
    if version = 1 then (stores, (v1ExportPacket data).map .v1p)
    else if version = 5 then (stores, (v5ExportPacket data).map .v5p)
    else if version = 9 then
      match v9ExportPacket data stores.netflow with
      | .error (e, s) => ({ stores with netflow := s }, .error e)
      | .ok p => ({ stores with netflow := p.templates }, .ok (.v9p p))
    else if version = 10 then
      match ipfixExportPacket data stores.ipfix with
      | .error (e, s) => ({ stores with ipfix := s }, .error e)
      | .ok p => ({ stores with ipfix := p.templates }, .ok (.ipfixp p))
    else (stores, .error .unknownExportVersion)

/-- `utils.parse_packet`. -/
def parsePacket (input : PacketInput) (stores : ParseStores) :
    ParseStores × Except PyErr ParsedExport :=
  match parsePacketNormalize input with
  | .error e => (stores, .error e)
  | .ok data => parsePacketDispatch data stores

/-- Lower-case hex text of one octet (as `bytes.hex()` produces it). -/
def hexOfByte (b : Nat) : List Nat :=
  [(if b / 16 < 10 then 48 + b / 16 else 87 + b / 16),
   (if b % 16 < 10 then 48 + b % 16 else 87 + b % 16)]

/-- Lower-case hex text of a datagram, as character codes. -/
def hexText (d : List Nat) : List Nat :=
  d.flatMap hexOfByte

/-! ## netflow/collector.py -/

/-- `PACKET_TIMEOUT = 60 * 60` (`collector.py:30`). -/
def PACKET_TIMEOUT : Nat := 60 * 60

/-- `RawPacket(ts, client, data)`: the client address does not influence
parsing (the source keeps one global template store) and is omitted. -/
structure RawPacket where
  ts : Nat
  data : List Nat
  deriving DecidableEq, Repr

/-- The state of `ThreadedNetFlowListener.run` (`collector.py:114-158`):
the template stores, the input queue (`self.input`), the deferred-packet
list (`to_retry`), the output queue, and the packets dropped with the
"old and undecodable" warning (`droppedOld`, modelling the warning log). -/
structure CollectorState where
  stores : ParseStores
  input : List RawPacket
  toRetry : List RawPacket
  output : List (Nat × ParsedExport)
  droppedOld : List RawPacket
  deriving DecidableEq, Repr

/-- One iteration of the `while` loop of `ThreadedNetFlowListener.run`
at wall-clock time `now` (`time.time()` of the age check): dequeue a
packet (an empty queue is a no-op `continue`), parse it against the
in-place mutated stores, and either ignore it (`UnknownExportVersion`),
defer or age-drop it (`TemplateNotRecognized`), or emit it - re-queuing
the whole `to_retry` list into the input queue first when the export
carried new v9/IPFIX templates.  Any other exception is uncaught and
kills the listener thread (`.error`). -/
def processNext (now : Nat) (st : CollectorState) : Except PyErr CollectorState :=
  match st.input with
  | [] => .ok st
  | pkt :: rest =>
    let (stores, res) := parsePacket (.bytes pkt.data) st.stores
    let st := { st with stores := stores, input := rest }
    match res with
    | .error .unknownExportVersion => .ok st
    | .error .v9TemplateNotRecognized =>
      if now - pkt.ts > PACKET_TIMEOUT then .ok { st with droppedOld := st.droppedOld ++ [pkt] }
      else .ok { st with toRetry := st.toRetry ++ [pkt] }
    | .error .ipfixTemplateNotRecognized =>
      if now - pkt.ts > PACKET_TIMEOUT then .ok { st with droppedOld := st.droppedOld ++ [pkt] }
      else .ok { st with toRetry := st.toRetry ++ [pkt] }
    | .error e => .error e
    | .ok exp =>
      let st :=
        if (exp.headerVersion = 9 || exp.headerVersion = 10) &&
            exp.containsNewTemplates && !st.toRetry.isEmpty then
          { st with input := st.input ++ st.toRetry, toRetry := [] }
        else st
      .ok { st with output := st.output ++ [(pkt.ts, exp)] }

/-- An externally visible event of the listener: a datagram arriving on
the UDP socket (enqueued by `QueuingRequestHandler.handle`), or one
iteration of the processing loop at a given time. -/
inductive CollectorEvent where
  | arrive (pkt : RawPacket)
  | process (now : Nat)
  deriving DecidableEq, Repr

/-- One event step of the collector. -/
def collectorStep (st : CollectorState) : CollectorEvent → Except PyErr CollectorState
  | .arrive pkt => .ok { st with input := st.input ++ [pkt] }
  | .process now => processNext now st

/-- Run the collector over a sequence of events. -/
def collectorRun (st : CollectorState) : List CollectorEvent → Except PyErr CollectorState
  | [] => .ok st
  | e :: rest =>
    match collectorStep st e with
    | .error err => .error err
    | .ok st' => collectorRun st' rest


/-! ## Concrete datagrams and states used by the claim theorems -/

/-- The v1 test datagram of the repository's test suite (`PACKET_V1` in
`tests/test_netflow.py`): version 1, count 2, two ICMP records between
172.17.0.1 and 172.17.0.2. -/
def s1Datagram : List Nat := [
  0, 1, 0, 2, 0, 1, 24, 155, 94, 128, 195, 44, 47, 212, 24, 72, 172, 17, 0, 2, 172, 17, 0, 1,
  0, 0, 0, 0, 0, 0, 0, 0, 0, 0, 0, 10, 0, 0, 3, 72, 0, 0, 39, 199, 0, 0, 74, 241, 0, 0, 8, 0,
  0, 0, 1, 0, 0, 0, 0, 0, 0, 0, 0, 0, 172, 17, 0, 1, 172, 17, 0, 2, 0, 0, 0, 0, 0, 0, 0, 0, 0,
  0, 0, 10, 0, 0, 3, 72, 0, 0, 39, 199, 0, 0, 74, 241, 0, 0, 0, 0, 0, 0, 1, 0, 0, 0, 0, 0, 0,
  0, 0, 0]

/-- A v9 datagram whose only flowset is a data flowset with an unknown
template id 999 (header: version 9, count 1). -/
def v9OrphanData : List Nat :=
  [0, 9, 0, 1, 0, 0, 0, 0, 0, 0, 0, 0, 0, 0, 0, 0, 0, 0, 0, 0,
   3, 231, 0, 8, 170, 187, 204, 221]

/-- A v9 datagram carrying one template flowset that redefines template id
256 with the single field `(type 2, length 4)`. -/
def v9RedefineData : List Nat :=
  [0, 9, 0, 1, 0, 0, 0, 0, 0, 0, 0, 0, 0, 0, 0, 0, 0, 0, 0, 0,
   0, 0, 0, 12, 1, 0, 0, 1, 0, 2, 0, 4]

/-- A store already holding template id 256 with the single field
`(type 1, length 4)`. -/
def v9StoreWith256 : PyDict V9Template :=
  [(256, .record ⟨256, 1, [⟨1, 4⟩]⟩)]

/-- A v9 datagram with a data flowset for the unknown template id 999
followed by a template flowset defining template id 256. -/
def v9DataThenTemplate : List Nat :=
  [0, 9, 0, 2, 0, 0, 0, 0, 0, 0, 0, 0, 0, 0, 0, 0, 0, 0, 0, 0,
   3, 231, 0, 8, 1, 2, 3, 4,
   0, 0, 0, 12, 1, 0, 0, 1, 0, 2, 0, 4]

/-- An IPFIX datagram (length 24) whose single set is a template set with
one zero-field record for template id 256: a template withdrawal. -/
def ipfixWithdrawalData : List Nat :=
  [0, 10, 0, 24, 0, 0, 0, 0, 0, 0, 0, 0, 0, 0, 0, 0,
   0, 2, 0, 8, 1, 0, 0, 0]

/-- An IPFIX store holding template id 256. -/
def ipfixStoreWith256 : IpfixStore :=
  [(256, some [.std 1 4])]

/-- A v5 datagram with count 0 whose octets are not a valid UTF-8
sequence (octet 0xFF at index 7). -/
def v5BinaryDatagram : List Nat :=
  [0, 5, 0, 0, 0, 0, 0, 255, 0, 0, 0, 0, 0, 0, 0, 0, 0, 0, 0, 0,
   0, 0, 0, 0]

/-- Empty template stores. -/
def emptyStores : ParseStores := ⟨[], []⟩

/-- The initial collector state. -/
def c5InitState : CollectorState := ⟨emptyStores, [], [], [], []⟩

/-- A deferral scenario: the orphan v9 data packet arrives at time 0 and
is processed at time 0; the loop then runs again at time 1000000 with an
empty input queue. -/
def c5Events : List CollectorEvent :=
  [.arrive ⟨0, v9OrphanData⟩, .process 0, .process 1000000]

/-- An IPFIX datagram (length 28) whose single set is a template set
defining template id 256 with one field (id 1, length 4). -/
def ipfixTemplateOnlyData : List Nat :=
  [0, 10, 0, 28, 0, 0, 0, 0, 0, 0, 0, 0, 0, 0, 0, 0,
   0, 2, 0, 12, 1, 0, 0, 1, 0, 1, 0, 4]

/-- A collector state holding one deferred packet. -/
def c5WitnessState : CollectorState := ⟨emptyStores, [], [⟨7, []⟩], [], []⟩

deriving instance DecidableEq for Except

/-- `bind` of a successful `Except` computation. -/
theorem pyBindOk (a : α) (f : α → Except ε β) :
    (Except.ok a >>= f : Except ε β) = f a := rfl

/-- `bind` of a failed `Except` computation. -/
theorem pyBindError (e : ε) (f : α → Except ε β) :
    (Except.error e >>= f : Except ε β) = .error e := rfl

/-! ## Claims -/

/-- C1: for every datagram whose 16-octet v1 header parses and declares a
positive record count, `V1ExportPacket` does not produce the declared
records: it raises `NameError`, because the record loop instantiates the
undefined name `V1DataFlow` (the class is `DataFlow`). -/
theorem c1_v1_parse_raises_nameError (data : List Nat) (h : V1Header)
    (hh : v1ParseHeader data = .ok h) (hc : 1 ≤ h.count) :
    v1ExportPacket data = .error .nameError := by
  obtain ⟨n, hn⟩ : ∃ n, h.count = n + 1 := ⟨h.count - 1, by omega⟩
  have hl : v1FlowLoop h.count = .error .nameError := by rw [hn]; rfl
  simp [v1ExportPacket, hh, pyBindOk, hl, pyBindError]

/-- Witness for `c1_v1_parse_raises_nameError`: the S1 test datagram
(count 2) raises `NameError`. -/
theorem c1_v1_parse_raises_nameError_witness :
    v1ExportPacket s1Datagram = .error .nameError :=
  c1_v1_parse_raises_nameError s1Datagram
    ⟨1, 2, 71835, 1585496876, 802429000⟩ (by decide) (by decide)

/-- C2, counterexample: a well-formed data flowset of declared length 8
holding four 1-octet records for a template of width 1 parses to a single
record, not to (8 - 4) / 1 = 4 records: the loop treats the last
`4 - (length % 4) = 4` octets as padding. -/
theorem c2_counterexample :
    (v9DataFlowSet [4, 0, 0, 8, 9, 7, 7, 7] ⟨1024, 1, [⟨1, 1⟩]⟩).map
        (fun r => (r.1, r.2.1, r.2.2.length)) = .ok (1024, 8, 1) ∧
      (8 - 4) / 1 = 4 := by decide

/-- C3, counterexample: parsing a v9 packet that redefines the stored
template id 256 with a structurally different field list yields
`contains_new_templates = false` (the source only checks id presence),
although the stored field list changed. -/
theorem c3_counterexample :
    (v9ExportPacket v9RedefineData v9StoreWith256).map
        (fun p => (p.newTemplates, pyGet p.templates 256)) =
      .ok (false, some (.record ⟨256, 1, [⟨2, 4⟩]⟩)) ∧
    pyGet v9StoreWith256 256 = some (.record ⟨256, 1, [⟨1, 4⟩]⟩) ∧
    (⟨256, 1, [⟨2, 4⟩]⟩ : V9TemplateRecord) ≠ ⟨256, 1, [⟨1, 4⟩]⟩ := by decide

/-- C4: a withdrawal (zero-field template record for the stored id 256)
does not remove the template and succeed: the deletion loop of
`IPFIXExportPacket.__init__` deletes from the store dict while iterating
over it, so parsing dies with `RuntimeError` (store left empty here, with
the first `None` entry removed). -/
theorem c4_withdrawal_raises_runtimeError :
    ipfixExportPacket ipfixWithdrawalData ipfixStoreWith256 =
        .error (.runtimeError, []) ∧
      pyGet ipfixStoreWith256 256 = some (some [.std 1 4]) := by decide

/-- C6: a non-bytes (numeric) IANA data type with a declared template
length outside {1, 2, 4, 8} does not fall back to big-endian integer
decoding: `IPFIXDataRecord` raises `IPFIXTemplateError` while building
the unpack format. -/
theorem c6_reduced_width_raises_templateError (id len : Nat) (ty : IpfixType)
    (data : List Nat) (hty : ipfixById id = some ty) (hbytes : ty.isBytes = false)
    (h1 : len ≠ 1) (h2 : len ≠ 2) (h4 : len ≠ 4) (h8 : len ≠ 8) :
    ipfixDataRecord data [.std id len] = .error .ipfixTemplateError := by
  have hs : ipfixBuildSpecs [.std id len] = .error .ipfixTemplateError := by
    simp [ipfixBuildSpecs, IpfixField.fid, IpfixField.flen, hty, hbytes, h1, h2, h4, h8]
  simp [ipfixDataRecord, hs, pyBindError]

/-- Witness for `c6_reduced_width_raises_templateError`: field id 1
(octetDeltaCount, unsigned64) exported with reduced size 3 raises
`IPFIXTemplateError` instead of decoding the integer 42. -/
theorem c6_reduced_width_raises_templateError_witness :
    ipfixDataRecord [0, 0, 42] [.std 1 3] = .error .ipfixTemplateError :=
  c6_reduced_width_raises_templateError 1 3 .u64 [0, 0, 42]
    (by decide) (by decide) (by decide) (by decide) (by decide) (by decide)

/-- C7: a 4-octet IPFIX set header is rejected with `IPFIXRFCError`
exactly when its set id is 0, 1 or in [4, 255], and accepted (returning
the set id and length) for set ids 2, 3 and at least 256. -/
theorem c7_forbidden_set_ids (sid len : Nat) (hs : sid < 65536) (_hl : len < 65536) :
    (ipfixSetHeader [sid / 256, sid % 256, len / 256, len % 256] =
        .error .ipfixRFCError ↔ sid = 0 ∨ sid = 1 ∨ (4 ≤ sid ∧ sid ≤ 255)) ∧
    ((sid = 2 ∨ sid = 3 ∨ 256 ≤ sid) →
      ipfixSetHeader [sid / 256, sid % 256, len / 256, len % 256] = .ok (sid, len)) := by
  have r1 : readBE [sid / 256, sid % 256, len / 256, len % 256] 0 2 = .ok sid := by
    simp [readBE, pySlice, beNat, List.foldl]; omega
  have r2 : readBE [sid / 256, sid % 256, len / 256, len % 256] 2 2 = .ok len := by
    simp [readBE, pySlice, beNat, List.foldl]; omega
  by_cases hc : (sid = 0 || sid = 1 || (4 ≤ sid && sid ≤ 255)) = true
  · constructor
    · simp only [ipfixSetHeader, r1, r2, pyBindOk, if_pos hc]
      simp at hc ⊢
      omega
    · intro hid
      exfalso
      simp at hc
      omega
  · constructor
    · simp only [ipfixSetHeader, r1, r2, pyBindOk, if_neg hc]
      constructor
      · intro habs; exact absurd habs (by simp)
      · intro habs; exfalso; simp at hc; omega
    · intro _
      simp only [ipfixSetHeader, r1, r2, pyBindOk, if_neg hc]

/-- Witness for `c7_forbidden_set_ids` at set id 256, length 20. -/
theorem c7_forbidden_set_ids_witness :
    ipfixSetHeader [256 / 256, 256 % 256, 20 / 256, 20 % 256] = .ok (256, 20) :=
  (c7_forbidden_set_ids 256 20 (by decide) (by decide)).2 (by decide)

/-- C5, counterexample: the orphan v9 data packet is deferred at time 0;
at time 1000000 (far beyond `PACKET_TIMEOUT = 3600` after its receive
timestamp) it is still in `to_retry` and no drop warning was issued -
with no template arrivals the collector never re-examines the buffer. -/
theorem c5_counterexample :
    (collectorRun c5InitState c5Events).map
        (fun st => (st.toRetry, st.droppedOld, st.output)) =
      .ok ([⟨0, v9OrphanData⟩], [], []) ∧
    1000000 > 0 + PACKET_TIMEOUT := by decide

/-- C5, amended: one iteration of the collector loop never discards a
packet already held in `to_retry`: the packet either stays in `to_retry`
or - only when the buffer is drained for a retry because a successfully
parsed packet carried new templates - moves to the input queue.  In
particular the mere passage of time never drops a deferred packet; the
age check runs only when a packet is (re-)parsed. -/
theorem c5_amended_buffer_never_expires (st : CollectorState)
    (ev : CollectorEvent) (st' : CollectorState) (pkt : RawPacket)
    (hstep : collectorStep st ev = .ok st') (hmem : pkt ∈ st.toRetry) :
    pkt ∈ st'.toRetry ∨ (st'.toRetry = [] ∧ pkt ∈ st'.input) := by
  cases ev with
  | arrive q =>
    simp only [collectorStep] at hstep
    injection hstep with h
    subst h
    exact Or.inl hmem
  | process now =>
    simp only [collectorStep, processNext] at hstep
    split at hstep
    · injection hstep with h; subst h; exact Or.inl hmem
    · split at hstep
      · injection hstep with h; subst h; exact Or.inl hmem
      · split at hstep
        · injection hstep with h; subst h; exact Or.inl hmem
        · injection hstep with h; subst h
          exact Or.inl (List.mem_append_left _ hmem)
      · split at hstep
        · injection hstep with h; subst h; exact Or.inl hmem
        · injection hstep with h; subst h
          exact Or.inl (List.mem_append_left _ hmem)
      · simp at hstep
      · split at hstep
        · injection hstep with h; subst h
          exact Or.inr ⟨rfl, List.mem_append_right _ hmem⟩
        · injection hstep with h; subst h; exact Or.inl hmem

/-- Witness for `c5_amended_buffer_never_expires`: an idle processing
step at a state whose buffer holds one deferred packet. -/
theorem c5_amended_buffer_never_expires_witness :
    (⟨7, []⟩ : RawPacket) ∈ c5WitnessState.toRetry ∨
      (c5WitnessState.toRetry = [] ∧ (⟨7, []⟩ : RawPacket) ∈ c5WitnessState.input) :=
  c5_amended_buffer_never_expires c5WitnessState (.process 0) c5WitnessState
    ⟨7, []⟩ (by decide) (by decide)

/-- A list of 7-bit (ASCII) octets is valid UTF-8. -/
theorem utf8Decodable_of_ascii (l : List Nat) (h : ∀ b ∈ l, b < 128) :
    pyUtf8Decodable l = true := by
  show utf8Run l 0 0 0 = true
  induction l with
  | nil => rfl
  | cons b r ih =>
    have hb : b < 128 := h b (List.mem_cons_self b r)
    simp only [utf8Run, utf8Need, if_pos hb]
    exact ih (fun x hx => h x (List.mem_cons_of_mem b hx))

/-- The hex text of an octet consists of ASCII hex digit characters. -/
theorem hexOfByte_ascii (b : Nat) (hb : b < 256) : ∀ c ∈ hexOfByte b, c < 128 := by
  intro c hc
  simp only [hexOfByte, List.mem_cons, List.not_mem_nil, or_false] at hc
  rcases hc with rfl | rfl <;> split <;> omega

/-- `bytes.fromhex` inverts `hexText` on true octet lists. -/
theorem pyFromhex_hexText (D : List Nat) (h : ∀ b ∈ D, b < 256) :
    pyFromhex (hexText D) = .ok D := by
  induction D with
  | nil => rfl
  | cons b r ih =>
    have hb : b < 256 := h b (List.mem_cons_self b r)
    have hd16 : b / 16 < 16 := by omega
    have h1 : isHexDigit (if b / 16 < 10 then 48 + b / 16 else 87 + b / 16) = true := by
      split <;> (simp [isHexDigit]; omega)
    have h2 : isHexDigit (if b % 16 < 10 then 48 + b % 16 else 87 + b % 16) = true := by
      split <;> (simp [isHexDigit]; omega)
    have hv : hexVal (if b / 16 < 10 then 48 + b / 16 else 87 + b / 16) * 16 +
        hexVal (if b % 16 < 10 then 48 + b % 16 else 87 + b % 16) = b := by
      simp only [hexVal]
      repeat' split
      all_goals omega
    have ihr := ih (fun x hx => h x (List.mem_cons_of_mem b hx))
    show pyFromhex ((if b / 16 < 10 then 48 + b / 16 else 87 + b / 16) ::
      (if b % 16 < 10 then 48 + b % 16 else 87 + b % 16) :: hexText r) = .ok (b :: r)
    rw [pyFromhex]
    simp [h1, h2, ihr, pyBindOk, hv]

/-- Hex text, being ASCII hex digit pairs, is normalised by hex-decoding. -/
theorem parsePacketNormalize_hexText (D : List Nat) (h : ∀ b ∈ D, b < 256) :
    parsePacketNormalize (.bytes (hexText D)) = .ok D := by
  have hascii : ∀ c ∈ hexText D, c < 128 := by
    intro c hc
    simp only [hexText, List.mem_flatMap] at hc
    obtain ⟨b, hbD, hcb⟩ := hc
    exact hexOfByte_ascii b (h b hbD) c hcb
  show (if pyUtf8Decodable (hexText D) = true then pyFromhex (hexText D)
    else .ok (hexText D)) = .ok D
  rw [utf8Decodable_of_ascii _ hascii, if_pos rfl]
  exact pyFromhex_hexText D h

/-- C8: `parse_packet` does not always parse the given octets as-is.  A
datagram's lower-case hex text - passed as bytes or as a string - is
hex-decoded first and parsed exactly like the datagram's raw octets
(which are parsed as-is only because they are not valid UTF-8); and a
binary input that happens to be hex text is parsed as the decoded
datagram, although its own octets start with the version field 0x3030
(12336), which the dispatcher itself would reject as an unknown
version. -/
theorem c8_hex_text_diversion (D : List Nat) (stores : ParseStores)
    (hbytes : ∀ b ∈ D, b < 256) (hbin : pyUtf8Decodable D = false) :
    parsePacket (.bytes (hexText D)) stores = parsePacketDispatch D stores ∧
    parsePacket (.str (hexText D)) stores = parsePacketDispatch D stores ∧
    parsePacket (.bytes D) stores = parsePacketDispatch D stores ∧
    (parsePacket (.bytes (hexText v5BinaryDatagram)) emptyStores).2 =
      .ok (.v5p ⟨⟨5, 0, 255, 0, 0, 0, 0, 0, 0⟩, []⟩) ∧
    beNat (pySlice (hexText v5BinaryDatagram) 0 2) = 12336 ∧
    (parsePacketDispatch (hexText v5BinaryDatagram) emptyStores).2 =
      .error .unknownExportVersion := by
  refine ⟨?_, ?_, ?_, by decide, by decide, by decide⟩
  · simp only [parsePacket]
    rw [parsePacketNormalize_hexText D hbytes]
  · simp only [parsePacket, parsePacketNormalize]
    rw [pyFromhex_hexText D hbytes]
  · simp only [parsePacket, parsePacketNormalize]
    rw [hbin]
    simp

/-- Witness for `c8_hex_text_diversion` at the binary v5 datagram. -/
theorem c8_hex_text_diversion_witness :
    parsePacket (.bytes (hexText v5BinaryDatagram)) emptyStores =
        parsePacketDispatch v5BinaryDatagram emptyStores ∧
      parsePacket (.bytes v5BinaryDatagram) emptyStores =
        parsePacketDispatch v5BinaryDatagram emptyStores :=
  ⟨(c8_hex_text_diversion v5BinaryDatagram emptyStores (by decide) (by decide)).1,
   (c8_hex_text_diversion v5BinaryDatagram emptyStores (by decide) (by decide)).2.2.1⟩

/-- Helper bound: big-endian folding of octets below 256 stays below
`(a + 1) * 256 ^ length`. -/
theorem beNat_foldl_lt (l : List Nat) :
    ∀ a, (∀ b ∈ l, b < 256) →
      List.foldl (fun a b => a * 256 + b) a l < (a + 1) * 256 ^ l.length := by
  induction l with
  | nil => intro a _; simpa using Nat.lt_succ_self a
  | cons b r ih =>
    intro a h
    have hb : b < 256 := h b (List.mem_cons_self b r)
    have step := ih (a * 256 + b) (fun x hx => h x (List.mem_cons_of_mem b hx))
    calc List.foldl (fun a b => a * 256 + b) (a * 256 + b) r
        < (a * 256 + b + 1) * 256 ^ r.length := step
      _ ≤ ((a + 1) * 256) * 256 ^ r.length := by
          have : a * 256 + b + 1 ≤ (a + 1) * 256 := by omega
          exact Nat.mul_le_mul_right _ this
      _ = (a + 1) * 256 ^ (r.length + 1) := by ring
  
/-- The big-endian value of a list of octets is below `256 ^ length`. -/
theorem beNat_lt (l : List Nat) (h : ∀ b ∈ l, b < 256) :
    beNat l < 256 ^ l.length := by
  have := beNat_foldl_lt l 0 h
  simpa [beNat] using this

/-- Elements of a Python slice are elements of the sliced list. -/
theorem mem_pySlice (data : List Nat) (a c b : Nat) (h : b ∈ pySlice data a c) :
    b ∈ data :=
  List.mem_of_mem_drop (List.mem_of_mem_take h)

/-- Length of a Python slice. -/
theorem pySlice_length (data : List Nat) (a c : Nat) :
    (pySlice data a c).length = min (c - a) (data.length - a) := by
  simp [pySlice]

/-- On a true octet stream, every template field whose type is IP-typed
only with lengths 1, 2, 4 or 16 advances the offset by its full length:
the total advance of one record is the template width. -/
theorem v9UnpackFields_adv (data : List Nat) (hb : ∀ b ∈ data, b < 256) :
    ∀ (fields : List V9TemplateField) (p adv : Nat) (acc : PyDict V9Value),
      (∀ f ∈ fields, f.fieldType ∈ v9FieldTypesContainingIp →
        f.fieldLength = 1 ∨ f.fieldLength = 2 ∨ f.fieldLength = 4 ∨ f.fieldLength = 16) →
      (v9UnpackFields data p adv acc fields).2 =
        adv + (fields.map (·.fieldLength)).sum := by
  intro fields
  induction fields with
  | nil => intro p adv acc _; simp [v9UnpackFields]
  | cons f rest ih =>
    intro p adv acc hip
    have hrest : ∀ g ∈ rest, g.fieldType ∈ v9FieldTypesContainingIp →
        g.fieldLength = 1 ∨ g.fieldLength = 2 ∨ g.fieldLength = 4 ∨ g.fieldLength = 16 :=
      fun g hg => hip g (List.mem_cons_of_mem f hg)
    by_cases hipf : f.fieldType ∈ v9FieldTypesContainingIp
    · rcases hip f (List.mem_cons_self f rest) hipf with h1 | h2 | h4 | h16
      all_goals {
        first
        | -- lengths 1, 2, 4: the integer branch with a value below 2^32
          (have hsmall : beNat (pySlice data p (p + f.fieldLength)) < 2 ^ 32 := by
            have hlt := beNat_lt (pySlice data p (p + f.fieldLength))
              (fun b hbmem => hb b (mem_pySlice data p (p + f.fieldLength) b hbmem))
            have hle : (pySlice data p (p + f.fieldLength)).length ≤ 4 := by
              rw [pySlice_length]; omega
            calc beNat (pySlice data p (p + f.fieldLength))
                < 256 ^ (pySlice data p (p + f.fieldLength)).length := hlt
              _ ≤ 256 ^ 4 := Nat.pow_le_pow_right (by omega) hle
              _ ≤ 2 ^ 32 := by norm_num
           simp only [v9UnpackFields]
           rw [if_pos (by simp [hipf])]
           rw [if_pos (by simp [*])]
           rw [if_pos (by simpa using hsmall)]
           rw [ih (p + f.fieldLength) (adv + f.fieldLength) _ hrest]
           simp
           omega)
        | -- length 16: the ipv6 bytes branch
          (simp only [v9UnpackFields]
           rw [if_pos (by simp [hipf])]
           rw [if_neg (by simp [*])]
           rw [if_pos (by simp [*])]
           rw [ih (p + f.fieldLength) (adv + f.fieldLength) _ hrest]
           simp
           omega)
      }
    · simp only [v9UnpackFields]
      rw [if_neg (by simpa using hipf)]
      rw [ih (p + f.fieldLength) (adv + f.fieldLength) _ hrest]
      simp
      omega

/-- The record loop of `V9DataFlowSet` under a template of positive width
`w` whose records consume exactly `w` octets: with enough data and fuel it
succeeds, appending `(limit - offset) / w + 1` records when
`offset ≤ limit` (where `limit = length - padding_size`) and none
otherwise. -/
theorem v9DataRecordLoop_count (data : List Nat) (length w : Nat)
    (fields : List V9TemplateField)
    (hb : ∀ b ∈ data, b < 256)
    (hip : ∀ f ∈ fields, f.fieldType ∈ v9FieldTypesContainingIp →
      f.fieldLength = 1 ∨ f.fieldLength = 2 ∨ f.fieldLength = 4 ∨ f.fieldLength = 16)
    (hw : 1 ≤ w) (hwsum : w = (fields.map (·.fieldLength)).sum)
    (hdata : length - v9PaddingSize length + w ≤ data.length) :
    ∀ fuel offset acc,
      length - v9PaddingSize length + 1 < fuel + offset →
      ∃ l, v9DataRecordLoop data length w fields offset acc fuel = .ok (acc ++ l) ∧
        l.length = (if offset ≤ length - v9PaddingSize length then
          (length - v9PaddingSize length - offset) / w + 1 else 0) := by
  intro fuel
  induction fuel with
  | zero =>
    intro offset acc hinv
    have hgt : ¬ offset ≤ length - v9PaddingSize length := by omega
    refine ⟨[], ?_, by simp [hgt]⟩
    simp [v9DataRecordLoop, hgt]
  | succ fuel ih =>
    intro offset acc hinv
    by_cases hle : offset ≤ length - v9PaddingSize length
    · have hslice : (pySlice data offset (offset + w)).length = w := by
        rw [pySlice_length]; omega
      have hadv : (v9UnpackFields data offset 0 [] fields).2 = w := by
        rw [v9UnpackFields_adv data hb fields offset 0 [] hip]; omega
      obtain ⟨l, hres, hlen⟩ := ih (offset + w)
        (acc ++ [(v9UnpackFields data offset 0 [] fields).1]) (by omega)
      refine ⟨(v9UnpackFields data offset 0 [] fields).1 :: l, ?_, ?_⟩
      · rw [v9DataRecordLoop, if_pos hle]
        rw [if_pos hslice]
        have : (v9UnpackFields data offset 0 [] fields) =
            ((v9UnpackFields data offset 0 [] fields).1, w) := by
          rw [← hadv]
        rw [this] at hres ⊢
        simpa using hres
      · rw [List.length_cons, hlen, if_pos hle]
        by_cases hlast : offset + w ≤ length - v9PaddingSize length
        · rw [if_pos hlast]
          have hdiv := Nat.div_eq_sub_div (by omega : 0 < w)
            (by omega : w ≤ length - v9PaddingSize length - offset)
          have heq : length - v9PaddingSize length - offset - w =
              length - v9PaddingSize length - (offset + w) := by omega
          rw [heq] at hdiv
          omega
        · rw [if_neg hlast]
          have : (length - v9PaddingSize length - offset) / w = 0 :=
            Nat.div_eq_of_lt (by omega)
          omega
    · refine ⟨[], ?_, by simp [hle]⟩
      simp [v9DataRecordLoop, hle]

/-- C2, amended: for a template of positive record width `w` (each
IP-typed field having length 1, 2, 4 or 16) and a data flowset of
declared length `L` backed by enough octets, `V9DataFlowSet` produces
exactly `((L - padding) - 4) / w + 1` records when `4 ≤ L - padding` and
none otherwise, where `padding = 4 - (L mod 4)` - so 4 whole octets are
treated as padding whenever `L` is a multiple of 4. -/
theorem c2_amended_flowset_record_count (data : List Nat) (t : V9TemplateRecord)
    (hb : ∀ b ∈ data, b < 256)
    (hip : ∀ f ∈ t.fields, f.fieldType ∈ v9FieldTypesContainingIp →
      f.fieldLength = 1 ∨ f.fieldLength = 2 ∨ f.fieldLength = 4 ∨ f.fieldLength = 16)
    (hw : 1 ≤ (t.fields.map (·.fieldLength)).sum)
    (h4 : 4 ≤ data.length)
    (hdata : beNat (pySlice data 2 4) - v9PaddingSize (beNat (pySlice data 2 4)) +
      (t.fields.map (·.fieldLength)).sum ≤ data.length) :
    ∃ flows, v9DataFlowSet data t =
        .ok (beNat (pySlice data 0 2), beNat (pySlice data 2 4), flows) ∧
      flows.length = (if 4 ≤ beNat (pySlice data 2 4) -
          v9PaddingSize (beNat (pySlice data 2 4)) then
        (beNat (pySlice data 2 4) - v9PaddingSize (beNat (pySlice data 2 4)) - 4) /
          (t.fields.map (·.fieldLength)).sum + 1 else 0) := by
  have r0 : readBE data 0 2 = .ok (beNat (pySlice data 0 2)) := by
    rw [readBE]
    rw [if_pos (by rw [pySlice_length]; omega)]
  have r2 : readBE data 2 2 = .ok (beNat (pySlice data 2 4)) := by
    rw [readBE]
    rw [if_pos (by rw [pySlice_length]; omega)]
  obtain ⟨l, hres, hlen⟩ := v9DataRecordLoop_count data (beNat (pySlice data 2 4))
    ((t.fields.map (·.fieldLength)).sum) t.fields hb hip hw rfl hdata
    (beNat (pySlice data 2 4) + 1) 4 [] (by omega)
  refine ⟨l, ?_, by simpa using hlen⟩
  simp only [v9DataFlowSet, r0, r2, pyBindOk, hres, List.nil_append]

/-- Witness for `c2_amended_flowset_record_count`: a flowset of length 16
with three 4-octet records for a width-4 template. -/
theorem c2_amended_flowset_record_count_witness :
    ∃ flows, v9DataFlowSet [4, 0, 0, 16, 0, 0, 0, 1, 0, 0, 0, 2, 0, 0, 0, 3]
        (⟨1024, 1, [⟨1, 4⟩]⟩ : V9TemplateRecord) =
        .ok (beNat (pySlice [4, 0, 0, 16, 0, 0, 0, 1, 0, 0, 0, 2, 0, 0, 0, 3] 0 2),
          beNat (pySlice [4, 0, 0, 16, 0, 0, 0, 1, 0, 0, 0, 2, 0, 0, 0, 3] 2 4), flows) ∧
      flows.length = (if 4 ≤ beNat (pySlice [4, 0, 0, 16, 0, 0, 0, 1, 0, 0, 0, 2, 0, 0, 0, 3] 2 4) -
          v9PaddingSize (beNat (pySlice [4, 0, 0, 16, 0, 0, 0, 1, 0, 0, 0, 2, 0, 0, 0, 3] 2 4)) then
        (beNat (pySlice [4, 0, 0, 16, 0, 0, 0, 1, 0, 0, 0, 2, 0, 0, 0, 3] 2 4) -
            v9PaddingSize (beNat (pySlice [4, 0, 0, 16, 0, 0, 0, 1, 0, 0, 0, 2, 0, 0, 0, 3] 2 4)) - 4) /
          (([⟨1, 4⟩] : List V9TemplateField).map (·.fieldLength)).sum + 1 else 0) :=
  c2_amended_flowset_record_count [4, 0, 0, 16, 0, 0, 0, 1, 0, 0, 0, 2, 0, 0, 0, 3]
    ⟨1024, 1, [⟨1, 4⟩]⟩ (by decide) (by decide) (by decide) (by decide) (by decide)

/-- Key membership after a Python dict insertion. -/
theorem pyContains_pyInsert_iff (d : PyDict α) (k k' : Nat) (v : α) :
    pyContains (pyInsert d k v) k' = true ↔ (pyContains d k' = true ∨ k = k') := by
  unfold pyInsert
  split
  case isTrue h =>
    have hkeys : pyContains (d.map (fun p => if p.1 = k then (k, v) else p)) k' = true ↔
        pyContains d k' = true := by
      simp only [pyContains, List.any_eq_true, List.mem_map]
      constructor
      · rintro ⟨x, ⟨q, hq, rfl⟩, hx1⟩
        by_cases hqk : q.1 = k
        · rw [if_pos hqk] at hx1
          simp at hx1
          exact ⟨q, hq, by simp [hqk, hx1]⟩
        · rw [if_neg hqk] at hx1
          exact ⟨q, hq, hx1⟩
      · rintro ⟨q, hq, hq1⟩
        refine ⟨if q.1 = k then (k, v) else q, ⟨q, hq, rfl⟩, ?_⟩
        by_cases hqk : q.1 = k
        · rw [if_pos hqk]
          simp at hq1 ⊢
          omega
        · rw [if_neg hqk]
          exact hq1
    rw [hkeys]
    constructor
    · exact fun hc => Or.inl hc
    · rintro (hc | rfl)
      · exact hc
      · exact h
  case isFalse h =>
    unfold pyContains
    rw [List.any_append]
    simp [pyContains]

/-- The generic template-registration fold of `V9ExportPacket.__init__`
(`v9.py:524-527` and `v9.py:536-539`), abstracted over the constructor
wrapped around the registered record. -/
theorem regFold_contains_mono (g : α → V9Template) (tpls : List (Nat × α)) :
    ∀ (store : PyDict V9Template) (flag : Bool) (k : Nat),
      pyContains store k = true →
      pyContains (tpls.foldl
        (fun sf p => (pyInsert sf.1 p.1 (g p.2), sf.2 || !pyContains sf.1 p.1))
        (store, flag)).1 k = true := by
  induction tpls with
  | nil => intro store flag k hk; exact hk
  | cons p rest ih =>
    intro store flag k hk
    exact ih (pyInsert store p.1 (g p.2)) _ k
      ((pyContains_pyInsert_iff store p.1 k (g p.2)).2 (Or.inl hk))

/-- The registration fold raises the flag exactly when the resulting
store contains a key the initial store lacked. -/
theorem regFold_flag_iff (g : α → V9Template) (tpls : List (Nat × α)) :
    ∀ (store : PyDict V9Template) (flag : Bool),
      ((tpls.foldl
          (fun sf p => (pyInsert sf.1 p.1 (g p.2), sf.2 || !pyContains sf.1 p.1))
          (store, flag)).2 = true ↔
        (flag = true ∨ ∃ k, pyContains (tpls.foldl
          (fun sf p => (pyInsert sf.1 p.1 (g p.2), sf.2 || !pyContains sf.1 p.1))
          (store, flag)).1 k = true ∧ pyContains store k = false)) := by
  induction tpls with
  | nil =>
    intro store flag
    simp only [List.foldl_nil]
    constructor
    · exact fun h => Or.inl h
    · rintro (h | ⟨k, hk, hk'⟩)
      · exact h
      · rw [hk] at hk'; cases hk'
  | cons p rest ih =>
    intro store flag
    simp only [List.foldl_cons]
    rw [ih (pyInsert store p.1 (g p.2)) (flag || !pyContains store p.1)]
    by_cases cp : pyContains store p.1 = true
    · have hS1 : ∀ x, pyContains (pyInsert store p.1 (g p.2)) x = true ↔
          pyContains store x = true := by
        intro x
        rw [pyContains_pyInsert_iff]
        constructor
        · rintro (hx | rfl)
          · exact hx
          · exact cp
        · exact fun hx => Or.inl hx
      rw [cp]
      constructor
      · rintro (hf | ⟨k, hk, hk'⟩)
        · simp at hf; exact Or.inl hf
        · refine Or.inr ⟨k, hk, ?_⟩
          by_contra hc
          simp at hc
          exact absurd ((hS1 k).2 hc) (by rw [hk']; simp)
      · rintro (hf | ⟨k, hk, hk'⟩)
        · exact Or.inl (by simp [hf])
        · refine Or.inr ⟨k, hk, ?_⟩
          by_contra hc
          simp at hc
          exact absurd ((hS1 k).1 hc) (by rw [hk']; simp)
    · have cpf : pyContains store p.1 = false := by
        cases h : pyContains store p.1
        · rfl
        · exact absurd h cp
      rw [cpf]
      simp only [Bool.not_false, Bool.or_true, true_or]
      constructor
      · intro _
        refine Or.inr ⟨p.1, ?_, cpf⟩
        exact regFold_contains_mono g rest (pyInsert store p.1 (g p.2)) _ p.1
          ((pyContains_pyInsert_iff store p.1 p.1 (g p.2)).2 (Or.inr rfl))
      · intro _
        trivial

/-- Composition of two store-growing steps: the flag characterisation is
transitive along key-monotone store updates. -/
theorem newKey_step_trans (S S1 Sf : PyDict V9Template) (f f1 ff : Bool)
    (m1 : ∀ k, pyContains S k = true → pyContains S1 k = true)
    (m2 : ∀ k, pyContains S1 k = true → pyContains Sf k = true)
    (i1 : f1 = true ↔ (f = true ∨ ∃ k, pyContains S1 k = true ∧ pyContains S k = false))
    (i2 : ff = true ↔ (f1 = true ∨ ∃ k, pyContains Sf k = true ∧ pyContains S1 k = false)) :
    (∀ k, pyContains S k = true → pyContains Sf k = true) ∧
    (ff = true ↔ (f = true ∨ ∃ k, pyContains Sf k = true ∧ pyContains S k = false)) := by
  refine ⟨fun k hk => m2 k (m1 k hk), ?_⟩
  rw [i2, i1]
  constructor
  · rintro ((hf | ⟨k, hk1, hk0⟩) | ⟨k, hkf, hk1⟩)
    · exact Or.inl hf
    · exact Or.inr ⟨k, m2 k hk1, hk0⟩
    · refine Or.inr ⟨k, hkf, ?_⟩
      cases h0 : pyContains S k
      · rfl
      · rw [m1 k h0] at hk1; cases hk1
  · rintro (hf | ⟨k, hkf, hk0⟩)
    · exact Or.inl (Or.inl hf)
    · cases h1 : pyContains S1 k
      · exact Or.inr ⟨k, hkf, h1⟩
      · exact Or.inl (Or.inr ⟨k, h1, hk0⟩)

/-- Trivial step: the store and flag do not change. -/
theorem newKey_step_refl (S : PyDict V9Template) (f : Bool) :
    (∀ k, pyContains S k = true → pyContains S k = true) ∧
    (f = true ↔ (f = true ∨ ∃ k, pyContains S k = true ∧ pyContains S k = false)) := by
  refine ⟨fun _ hk => hk, ?_⟩
  constructor
  · exact fun h => Or.inl h
  · rintro (h | ⟨k, hk, hk'⟩)
    · exact h
    · rw [hk] at hk'; cases hk'

/-- The walk of `V9ExportPacket.__init__` grows the template store
monotonically in its keys and ends with the `_new_templates` flag raised
exactly when it was already raised or the final store holds a template id
the initial store lacked: a template record whose id is already present
never raises the flag, however different its field list is. -/
theorem v9Walk_flag_iff (data : List Nat) :
    ∀ (fuel offset : Nat) (st st' : V9WalkState),
      v9Walk data offset st fuel = .ok st' →
      (∀ k, pyContains st.templates k = true → pyContains st'.templates k = true) ∧
      (st'.flag = true ↔ (st.flag = true ∨
        ∃ k, pyContains st'.templates k = true ∧ pyContains st.templates k = false)) := by
  intro fuel
  induction fuel with
  | zero =>
    intro offset st st' h
    rw [v9Walk] at h
    split at h
    · cases h
      exact newKey_step_refl st.templates st.flag
    · cases h
  | succ fuel ih =>
    intro offset st st' h
    rw [v9Walk] at h
    split at h
    · cases h
      exact newKey_step_refl st.templates st.flag
    · split at h
      case _ fsId fsLen _ _ =>
        split at h
        · -- template flowset (fsId = 0)
          split at h
          · cases h
          case _ fst tfsLen tpls _ =>
            have reg := regFold_flag_iff (fun t => V9Template.record t) tpls
              st.templates st.flag
            have regm : ∀ k, pyContains st.templates k = true →
                pyContains (v9RegisterTemplates st.templates st.flag tpls).1 k = true :=
              fun k hk => regFold_contains_mono (fun t => V9Template.record t)
                tpls st.templates st.flag k hk
            split at h
            · cases h
              exact ⟨regm, reg⟩
            · have step := ih _
                ⟨(v9RegisterTemplates st.templates st.flag tpls).1,
                 (v9RegisterTemplates st.templates st.flag tpls).2,
                 st.flows, st.options, st.skipped⟩ st' h
              exact newKey_step_trans _ _ _ _ _ _ regm step.1 reg step.2
        · split at h
          · -- options template flowset (fsId = 1)
            split at h
            · cases h
            case _ fst otfsLen tpls _ =>
              have reg := regFold_flag_iff (fun t => V9Template.options t) tpls
                st.templates st.flag
              have regm : ∀ k, pyContains st.templates k = true →
                  pyContains (v9RegisterOptions st.templates st.flag tpls).1 k = true :=
                fun k hk => regFold_contains_mono (fun t => V9Template.options t)
                  tpls st.templates st.flag k hk
              split at h
              · cases h
                exact ⟨regm, reg⟩
              · have step := ih _
                  ⟨(v9RegisterOptions st.templates st.flag tpls).1,
                   (v9RegisterOptions st.templates st.flag tpls).2,
                   st.flows, st.options, st.skipped⟩ st' h
                exact newKey_step_trans _ _ _ _ _ _ regm step.1 reg step.2
          · -- data / options data / skipped flowsets: store and flag unchanged
            split at h
            · split at h
              · cases h
                exact newKey_step_refl st.templates st.flag
              · exact ih _ ⟨st.templates, st.flag, st.flows, st.options,
                  st.skipped ++ [offset]⟩ st' h
            · split at h
              · cases h
              case _ t fst dfsLen flows _ =>
                split at h
                · cases h
                  exact newKey_step_refl st.templates st.flag
                · exact ih _ ⟨st.templates, st.flag, st.flows ++ flows,
                    st.options, st.skipped⟩ st' h
            · split at h
              · cases h
              case _ o fst odfsLen recs _ =>
                split at h
                · cases h
                  exact newKey_step_refl st.templates st.flag
                · exact ih _ ⟨st.templates, st.flag, st.flows,
                    st.options ++ recs, st.skipped⟩ st' h
      · cases h

/-- `V9ExportPacket` raises `contains_new_templates` exactly when the
(post-packet) store holds a template id absent from the pre-packet store;
the pre-packet store's ids all survive. -/
theorem v9ExportPacket_newTemplates_iff (data : List Nat)
    (store : PyDict V9Template) (p : V9Packet)
    (h : v9ExportPacket data store = .ok p) :
    (p.newTemplates = true ↔
      ∃ k, pyContains p.templates k = true ∧ pyContains store k = false) ∧
    (∀ k, pyContains store k = true → pyContains p.templates k = true) := by
  unfold v9ExportPacket at h
  split at h
  · cases h
  case _ hdr _ =>
    split at h
    · cases h
    case _ st hwalk =>
      have walk := v9Walk_flag_iff data (data.length + 2) 20
        ⟨store, false, [], [], []⟩ st hwalk
      have walk2 := walk.2
      simp only [Bool.false_eq_true, false_or] at walk2
      split at h
      · cases h
        exact ⟨walk2, walk.1⟩
      · split at h
        · split at h
          · cases h
          case _ pr _ =>
            cases h
            exact ⟨walk2, walk.1⟩
        · cases h
  

/-- The set walk of `IPFIXExportPacket.__init__` appends the parsed sets
and raises the flag exactly when it was raised before or some newly
appended set is a template or options-template set. -/
theorem ipfixWalk_flag (data : List Nat) (hlen : Nat) :
    ∀ (fuel offset : Nat) (templates : IpfixStore) (flag : Bool)
      (flows : List IpfixRecord) (sets : List IpfixSet)
      (off' : Nat) (store' : IpfixStore) (flag' : Bool)
      (flows' : List IpfixRecord) (sets' : List IpfixSet),
      ipfixWalk data hlen offset templates flag flows sets fuel =
        .ok (off', store', flag', flows', sets') →
      ∃ rest, sets' = sets ++ rest ∧ flag' = (flag || rest.any (·.isTemplate)) := by
  intro fuel
  induction fuel with
  | zero =>
    intro offset templates flag flows sets off' store' flag' flows' sets' h
    rw [ipfixWalk] at h
    split at h
    · cases h
    · cases h
      exact ⟨[], by simp⟩
  | succ fuel ih =>
    intro offset templates flag flows sets off' store' flag' flows' sets' h
    rw [ipfixWalk] at h
    split at h
    · split at h
      · cases h
      case _ s _ =>
        split at h
        case isTrue htpl =>
          split at h
          · cases h
          · obtain ⟨rest, hsets, hflag⟩ := ih _ _ _ _ _ _ _ _ _ _ h
            refine ⟨s :: rest, ?_, ?_⟩
            · rw [hsets]; simp
            · rw [hflag]
              simp [htpl]
        case isFalse htpl =>
          split at h
          · obtain ⟨rest, hsets, hflag⟩ := ih _ _ _ _ _ _ _ _ _ _ h
            refine ⟨s :: rest, ?_, ?_⟩
            · rw [hsets]; simp
            · rw [hflag]
              have : s.isTemplate = false := by
                cases hh : s.isTemplate
                · rfl
                · exact absurd hh htpl
              simp [this]
          · obtain ⟨rest, hsets, hflag⟩ := ih _ _ _ _ _ _ _ _ _ _ h
            refine ⟨s :: rest, ?_, ?_⟩
            · rw [hsets]; simp
            · rw [hflag]
              have : s.isTemplate = false := by
                cases hh : s.isTemplate
                · rfl
                · exact absurd hh htpl
              simp [this]
    · cases h
      exact ⟨[], by simp⟩

/-- `IPFIXExportPacket` raises `contains_new_templates` exactly when the
packet contains at least one template or options-template set, whether or
not its templates differ from the stored ones. -/
theorem ipfixExportPacket_newTemplates (data : List Nat) (store : IpfixStore)
    (q : IpfixPacket) (h : ipfixExportPacket data store = .ok q) :
    q.newTemplates = q.sets.any (·.isTemplate) := by
  unfold ipfixExportPacket at h
  split at h
  · cases h
  case _ hdr _ =>
    split at h
    · cases h
    case _ off st flag flows sets hwalk =>
      obtain ⟨rest, hsets, hflag⟩ := ipfixWalk_flag data hdr.length
        (hdr.length + 1) 16 store false [] [] off st flag flows sets hwalk
      split at h
      · cases h
      · cases h
        simp only [hflag, hsets, Bool.false_or, List.nil_append]

/-- C3, amended: for a v9 packet parsed successfully,
`contains_new_templates` is true iff some template id of the post-packet
store was absent from the pre-packet store (a changed field list under an
existing id does not raise it); for an IPFIX packet parsed successfully,
`contains_new_templates` is true iff the packet contains at least one
template or options-template set, even one identical to the stored
templates. -/
theorem c3_amended_new_template_flags (dataV9 : List Nat)
    (storeV9 : PyDict V9Template) (p : V9Packet) (dataIp : List Nat)
    (storeIp : IpfixStore) (q : IpfixPacket)
    (h9 : v9ExportPacket dataV9 storeV9 = .ok p)
    (hip : ipfixExportPacket dataIp storeIp = .ok q) :
    (p.newTemplates = true ↔
      ∃ k, pyContains p.templates k = true ∧ pyContains storeV9 k = false) ∧
    q.newTemplates = q.sets.any (·.isTemplate) :=
  ⟨(v9ExportPacket_newTemplates_iff dataV9 storeV9 p h9).1,
   ipfixExportPacket_newTemplates dataIp storeIp q hip⟩

/-- Witness for `c3_amended_new_template_flags`: the template-redefining
v9 packet against a store already holding id 256, and a template-carrying
IPFIX packet against an empty store. -/
theorem c3_amended_new_template_flags_witness :
    ((V9Packet.mk ⟨9, 1, 0, 0, 0, 0⟩
        [(256, .record ⟨256, 1, [⟨2, 4⟩]⟩)] false [] []).newTemplates = true ↔
      ∃ k, pyContains (V9Packet.mk ⟨9, 1, 0, 0, 0, 0⟩
        [(256, .record ⟨256, 1, [⟨2, 4⟩]⟩)] false [] []).templates k = true ∧
        pyContains v9StoreWith256 k = false) ∧
    (IpfixPacket.mk ⟨10, 28, 0, 0, 0⟩ [(256, some [.std 1 4])] true []
        [⟨2, 12, [.tpl ⟨256, 1, [.std 1 4], 8⟩], [(256, some [.std 1 4])]⟩]).newTemplates =
      (IpfixPacket.mk ⟨10, 28, 0, 0, 0⟩ [(256, some [.std 1 4])] true []
        [⟨2, 12, [.tpl ⟨256, 1, [.std 1 4], 8⟩], [(256, some [.std 1 4])]⟩]).sets.any
        (·.isTemplate) :=
  c3_amended_new_template_flags v9RedefineData v9StoreWith256 _
    ipfixTemplateOnlyData [] _ (by decide) (by decide)

/-- `v9ParseHeader` can only fail with `struct.error`. -/
theorem v9ParseHeader_error (data : List Nat) (e : PyErr)
    (h : v9ParseHeader data = .error e) : e = .structError := by
  unfold v9ParseHeader at h
  split at h
  · cases h
  · cases h; rfl

/-- The second pass of `V9ExportPacket.__init__` never touches the
template store: any error it raises carries the store it was given. -/
theorem v9Reprocess_error_store (data : List Nat) (store : PyDict V9Template) :
    ∀ (flows : List (PyDict V9Value)) (options : List V9OptRecord)
      (offs : List Nat) (e : PyErr) (s : PyDict V9Template),
      v9Reprocess data store flows options offs = .error (e, s) → s = store := by
  intro flows options offs
  induction offs generalizing flows options with
  | nil =>
    intro e s h
    cases h
  | cons off rest ih =>
    intro e s h
    rw [v9Reprocess] at h
    split at h
    · cases h; rfl
    · split at h
      · cases h; rfl
      · split at h
        · cases h; rfl
        · exact ih _ _ _ _ h
      · split at h
        · cases h; rfl
        · exact ih _ _ _ _ h

/-- C9: parsing a v9 packet is not atomic with respect to the caller's
template store.  When `V9ExportPacket` has walked all flowsets (reaching
walk state `st`) and then raises `V9TemplateNotRecognized`, the store the
caller observes is exactly the post-walk store - every template flowset of
the packet registered before the failure stays registered - and all
pre-existing template ids are still present. -/
theorem c9_store_mutated_before_raise (data : List Nat)
    (store : PyDict V9Template) (st : V9WalkState) (s : PyDict V9Template)
    (hwalk : v9Walk data 20 ⟨store, false, [], [], []⟩ (data.length + 2) = .ok st)
    (herr : v9ExportPacket data store = .error (.v9TemplateNotRecognized, s)) :
    s = st.templates ∧
    (∀ k, pyContains store k = true → pyContains st.templates k = true) := by
  have mono := (v9Walk_flag_iff data (data.length + 2) 20
    ⟨store, false, [], [], []⟩ st hwalk).1
  refine ⟨?_, mono⟩
  unfold v9ExportPacket at herr
  split at herr
  case _ e heq =>
    have he := v9ParseHeader_error data e heq
    subst he
    cases herr
  case _ hdr _ =>
    rw [hwalk] at herr
    split at herr
    case _ es heq => simp at heq
    case _ st2 heq =>
      injection heq with heq2
      subst heq2
      split at herr
      · simp at herr
      · split at herr
        · split at herr
          case _ es hrep =>
            injection herr with h4
            subst h4
            exact v9Reprocess_error_store data st.templates st.flows st.options
              st.skipped _ _ hrep
          case _ pr _ => simp at herr
        · simp only [Except.error.injEq, Prod.mk.injEq] at herr
          exact herr.2.symm

/-- Witness for `c9_store_mutated_before_raise`: the data-then-template
packet raises `V9TemplateNotRecognized` while leaving template id 256
registered in the caller's (initially empty) store. -/
theorem c9_store_mutated_before_raise_witness :
    [(256, V9Template.record ⟨256, 1, [⟨2, 4⟩]⟩)] =
      (V9WalkState.mk [(256, .record ⟨256, 1, [⟨2, 4⟩]⟩)] true [] [] [20]).templates ∧
    (∀ k, pyContains ([] : PyDict V9Template) k = true →
      pyContains (V9WalkState.mk [(256, .record ⟨256, 1, [⟨2, 4⟩]⟩)]
        true [] [] [20]).templates k = true) :=
  c9_store_mutated_before_raise v9DataThenTemplate [] _ _ (by decide) (by decide)

/-- `readBE` can only fail with `struct.error`. -/
theorem readBE_error (data : List Nat) (off n : Nat) (e : PyErr)
    (h : readBE data off n = .error e) : e = .structError := by
  simp only [readBE] at h
  split at h
  · cases h
  · cases h; rfl

/-- A successful `readBE` implies the octets are in range. -/
theorem readBE_ok_bound (data : List Nat) (off n v : Nat) (hn : 0 < n)
    (h : readBE data off n = .ok v) : off + n ≤ data.length := by
  simp only [readBE] at h
  split at h
  case isTrue hl =>
    rw [pySlice_length] at hl
    omega
  · cases h

/-- The field loop of a v9 template record can only fail with
`struct.error`. -/
theorem v9ReadFields_error (data : List Nat) :
    ∀ (n offset : Nat) (e : PyErr),
      v9ReadFields data offset n = .error e → e = .structError := by
  intro n
  induction n with
  | zero => intro offset e h; cases h
  | succ n ih =>
    intro offset e h
    simp only [v9ReadFields] at h
    cases h1 : readBE data (offset + 4) 2 with
    | error e1 =>
      rw [h1, pyBindError] at h
      cases h
      exact readBE_error _ _ _ _ h1
    | ok ft =>
      rw [h1, pyBindOk] at h
      cases h2 : readBE data (offset + 6) 2 with
      | error e2 =>
        rw [h2, pyBindError] at h
        cases h
        exact readBE_error _ _ _ _ h2
      | ok fl =>
        rw [h2, pyBindOk] at h
        cases h3 : v9ReadFields data (offset + 4) n with
        | error e3 =>
          rw [h3, pyBindError] at h
          cases h
          exact ih _ _ h3
        | ok rest =>
          rw [h3, pyBindOk] at h
          cases h

/-- The template-record loop never fails with the walk's fuel marker. -/
theorem v9TemplateLoop_no_wfo (data : List Nat) (length : Nat) :
    ∀ (fuel offset : Nat) (acc : PyDict V9TemplateRecord) (e : PyErr),
      v9TemplateLoop data length offset acc fuel = .error e → e ≠ .walkFuelOut := by
  intro fuel
  induction fuel with
  | zero =>
    intro offset acc e h
    rw [v9TemplateLoop] at h
    split at h
    · cases h; intro hc; cases hc
    · cases h
  | succ fuel ih =>
    intro offset acc e h
    rw [v9TemplateLoop] at h
    split at h
    · cases h1 : readBE data offset 2 with
      | error e1 =>
        rw [h1, pyBindError] at h
        cases h
        rw [readBE_error _ _ _ _ h1]
        intro hc; cases hc
      | ok tid =>
        rw [h1, pyBindOk] at h
        cases h2 : readBE data (offset + 2) 2 with
        | error e2 =>
          rw [h2, pyBindError] at h
          cases h
          rw [readBE_error _ _ _ _ h2]
          intro hc; cases hc
        | ok fcount =>
          rw [h2, pyBindOk] at h
          cases h3 : v9ReadFields data offset fcount with
          | error e3 =>
            rw [h3, pyBindError] at h
            cases h
            rw [v9ReadFields_error _ _ _ _ h3]
            intro hc; cases hc
          | ok fields =>
            rw [h3, pyBindOk] at h
            exact ih _ _ _ h
    · cases h

/-- `V9TemplateFlowSet` never fails with the walk's fuel marker. -/
theorem v9TemplateFlowSet_no_wfo (data : List Nat) (e : PyErr)
    (h : v9TemplateFlowSet data = .error e) : e ≠ .walkFuelOut := by
  unfold v9TemplateFlowSet at h
  cases h1 : readBE data 0 2 with
  | error e1 =>
    rw [h1, pyBindError] at h
    cases h
    rw [readBE_error _ _ _ _ h1]
    intro hc; cases hc
  | ok fsId =>
    rw [h1, pyBindOk] at h
    cases h2 : readBE data 2 2 with
    | error e2 =>
      rw [h2, pyBindError] at h
      cases h
      rw [readBE_error _ _ _ _ h2]
      intro hc; cases hc
    | ok len =>
      rw [h2, pyBindOk] at h
      cases h3 : v9TemplateLoop data len 4 [] (len + 1) with
      | error e3 =>
        rw [h3, pyBindError] at h
        cases h
        exact v9TemplateLoop_no_wfo _ _ _ _ _ _ h3
      | ok tpls =>
        rw [h3, pyBindOk] at h
        cases h

/-- The scope/option pair loop of a v9 options template can only fail
with `struct.error`. -/
theorem v9ReadPairs_error (data : List Nat) :
    ∀ (n offset : Nat) (acc : PyDict Nat) (e : PyErr),
      v9ReadPairs data offset acc n = .error e → e = .structError := by
  intro n
  induction n with
  | zero => intro offset acc e h; cases h
  | succ n ih =>
    intro offset acc e h
    simp only [v9ReadPairs] at h
    cases h1 : readBE data offset 2 with
    | error e1 =>
      rw [h1, pyBindError] at h
      cases h
      exact readBE_error _ _ _ _ h1
    | ok t =>
      rw [h1, pyBindOk] at h
      cases h2 : readBE data (offset + 2) 2 with
      | error e2 =>
        rw [h2, pyBindError] at h
        cases h
        exact readBE_error _ _ _ _ h2
      | ok l =>
        rw [h2, pyBindOk] at h
        exact ih _ _ _ h

/-- The options-template record loop never fails with the walk's fuel
marker. -/
theorem v9OptionsTemplateLoop_no_wfo (data : List Nat) (length : Nat) :
    ∀ (fuel offset : Nat) (acc : PyDict V9OptionsTemplateRecord) (e : PyErr),
      v9OptionsTemplateLoop data length offset acc fuel = .error e →
      e ≠ .walkFuelOut := by
  intro fuel
  induction fuel with
  | zero =>
    intro offset acc e h
    rw [v9OptionsTemplateLoop] at h
    split at h
    · cases h; intro hc; cases hc
    · cases h
  | succ fuel ih =>
    intro offset acc e h
    rw [v9OptionsTemplateLoop] at h
    split at h
    · cases h1 : readBE data offset 2 with
      | error e1 =>
        rw [h1, pyBindError] at h
        cases h
        rw [readBE_error _ _ _ _ h1]
        intro hc; cases hc
      | ok tid =>
        rw [h1, pyBindOk] at h
        cases h2 : readBE data (offset + 2) 2 with
        | error e2 =>
          rw [h2, pyBindError] at h
          cases h
          rw [readBE_error _ _ _ _ h2]
          intro hc; cases hc
        | ok sl =>
          rw [h2, pyBindOk] at h
          cases h3 : readBE data (offset + 4) 2 with
          | error e3 =>
            rw [h3, pyBindError] at h
            cases h
            rw [readBE_error _ _ _ _ h3]
            intro hc; cases hc
          | ok ol =>
            rw [h3, pyBindOk] at h
            split at h
            · cases h; intro hc; cases hc
            · cases h4 : v9ReadPairs data (offset + 6) [] (sl / 4) with
              | error e4 =>
                rw [h4, pyBindError] at h
                cases h
                rw [v9ReadPairs_error _ _ _ _ _ h4]
                intro hc; cases hc
              | ok scopes =>
                rw [h4, pyBindOk] at h
                cases h5 : v9ReadPairs data (offset + 6 + sl) [] (ol / 4) with
                | error e5 =>
                  rw [h5, pyBindError] at h
                  cases h
                  rw [v9ReadPairs_error _ _ _ _ _ h5]
                  intro hc; cases hc
                | ok opts =>
                  rw [h5, pyBindOk] at h
                  exact ih _ _ _ h
    · cases h

/-- `V9OptionsTemplateFlowSet` never fails with the walk's fuel marker. -/
theorem v9OptionsTemplateFlowSet_no_wfo (data : List Nat) (e : PyErr)
    (h : v9OptionsTemplateFlowSet data = .error e) : e ≠ .walkFuelOut := by
  unfold v9OptionsTemplateFlowSet at h
  cases h1 : readBE data 0 2 with
  | error e1 =>
    rw [h1, pyBindError] at h
    cases h
    rw [readBE_error _ _ _ _ h1]
    intro hc; cases hc
  | ok fsId =>
    rw [h1, pyBindOk] at h
    cases h2 : readBE data 2 2 with
    | error e2 =>
      rw [h2, pyBindError] at h
      cases h
      rw [readBE_error _ _ _ _ h2]
      intro hc; cases hc
    | ok len =>
      rw [h2, pyBindOk] at h
      cases h3 : v9OptionsTemplateLoop data len 4 [] (len + 1) with
      | error e3 =>
        rw [h3, pyBindError] at h
        cases h
        exact v9OptionsTemplateLoop_no_wfo _ _ _ _ _ _ h3
      | ok tpls =>
        rw [h3, pyBindOk] at h
        cases h

/-- The v9 data-record loop never fails with the walk's fuel marker. -/
theorem v9DataRecordLoop_no_wfo (data : List Nat) (length w : Nat)
    (fields : List V9TemplateField) :
    ∀ (fuel offset : Nat) (acc : List (PyDict V9Value)) (e : PyErr),
      v9DataRecordLoop data length w fields offset acc fuel = .error e →
      e ≠ .walkFuelOut := by
  intro fuel
  induction fuel with
  | zero =>
    intro offset acc e h
    rw [v9DataRecordLoop] at h
    split at h
    · cases h; intro hc; cases hc
    · cases h
  | succ fuel ih =>
    intro offset acc e h
    rw [v9DataRecordLoop] at h
    split at h
    · split at h
      · cases hu : v9UnpackFields data offset 0 [] fields with
        | mk rec adv =>
          rw [hu] at h
          exact ih _ _ _ h
      · cases h; intro hc; cases hc
    · cases h

/-- `V9DataFlowSet` never fails with the walk's fuel marker. -/
theorem v9DataFlowSet_no_wfo (data : List Nat) (t : V9TemplateRecord)
    (e : PyErr) (h : v9DataFlowSet data t = .error e) : e ≠ .walkFuelOut := by
  unfold v9DataFlowSet at h
  cases h1 : readBE data 0 2 with
  | error e1 =>
    rw [h1, pyBindError] at h
    cases h
    rw [readBE_error _ _ _ _ h1]
    intro hc; cases hc
  | ok tid =>
    rw [h1, pyBindOk] at h
    cases h2 : readBE data 2 2 with
    | error e2 =>
      rw [h2, pyBindError] at h
      cases h
      rw [readBE_error _ _ _ _ h2]
      intro hc; cases hc
    | ok length =>
      rw [h2, pyBindOk] at h
      simp only [] at h
      cases h3 : v9DataRecordLoop data length
          ((t.fields.map (fun f => f.fieldLength)).sum) t.fields 4 [] (length + 1) with
      | error e3 =>
        rw [h3, pyBindError] at h
        cases h
        exact v9DataRecordLoop_no_wfo _ _ _ _ _ _ _ _ h3
      | ok flows =>
        rw [h3, pyBindOk] at h
        cases h

/-- The v9 options-data field fold can only fail with `ValueError`. -/
theorem v9OptionFold_error (data : List Nat) :
    ∀ (fs : List (Nat × Nat)) (off : Nat) (acc : PyDict V9OptValue) (e : PyErr),
      v9OptionFold data off acc fs = .error e → e = .valueError := by
  intro fs
  induction fs with
  | nil => intro off acc e h; cases h
  | cons p rest ih =>
    intro off acc e h
    rw [v9OptionFold] at h
    split at h
    · exact ih _ _ _ h
    · split at h
      · split at h
        · cases h; rfl
        · exact ih _ _ _ h
      · cases h; rfl

/-- The v9 options-data record loop never fails with the walk's fuel
marker. -/
theorem v9OptionsDataLoop_no_wfo (data : List Nat) (length : Nat)
    (t : V9OptionsTemplateRecord) :
    ∀ (fuel offset : Nat) (acc : List V9OptRecord) (e : PyErr),
      v9OptionsDataLoop data length t offset acc fuel = .error e →
      e ≠ .walkFuelOut := by
  intro fuel
  induction fuel with
  | zero =>
    intro offset acc e h
    rw [v9OptionsDataLoop] at h
    split at h
    · cases h; intro hc; cases hc
    · cases h
  | succ fuel ih =>
    intro offset acc e h
    rw [v9OptionsDataLoop] at h
    split at h
    · cases hs : v9ScopeFold data offset [] t.scopeFields with
      | mk scopes off1 =>
        rw [hs] at h
        simp only [] at h
        cases ho : v9OptionFold data off1 [] t.optionFields with
        | error e1 =>
          rw [ho] at h
          cases h
          rw [v9OptionFold_error _ _ _ _ _ ho]
          intro hc; cases hc
        | ok r =>
          cases r with
          | mk opts off2 =>
            rw [ho] at h
            exact ih _ _ _ h
    · cases h

/-- `V9OptionsDataFlowset` never fails with the walk's fuel marker. -/
theorem v9OptionsDataFlowSet_no_wfo (data : List Nat)
    (t : V9OptionsTemplateRecord) (e : PyErr)
    (h : v9OptionsDataFlowSet data t = .error e) : e ≠ .walkFuelOut := by
  unfold v9OptionsDataFlowSet at h
  cases h1 : readBE data 0 2 with
  | error e1 =>
    rw [h1, pyBindError] at h
    cases h
    rw [readBE_error _ _ _ _ h1]
    intro hc; cases hc
  | ok tid =>
    rw [h1, pyBindOk] at h
    cases h2 : readBE data 2 2 with
    | error e2 =>
      rw [h2, pyBindError] at h
      cases h
      rw [readBE_error _ _ _ _ h2]
      intro hc; cases hc
    | ok length =>
      rw [h2, pyBindOk] at h
      cases h3 : v9OptionsDataLoop data length t 4 [] (length + 1) with
      | error e3 =>
        rw [h3, pyBindError] at h
        cases h
        exact v9OptionsDataLoop_no_wfo _ _ _ _ _ _ _ h3
      | ok recs =>
        rw [h3, pyBindOk] at h
        cases h

/-- With fuel at least `len(data) + 2 - offset` (and at least 1), the
flowset walk never exhausts its fuel: every iteration that recurses
advances the offset by a non-zero flowset length that fits in the
datagram, a zero length breaks the loop, and an offset past the end fails
the 2-octet header read with `struct.error`. -/
theorem v9Walk_no_wfo (data : List Nat) :
    ∀ (fuel offset : Nat) (st : V9WalkState) (s : PyDict V9Template),
      data.length + 2 ≤ offset + fuel → 1 ≤ fuel →
      v9Walk data offset st fuel ≠ .error (.walkFuelOut, s) := by
  intro fuel
  induction fuel with
  | zero => intro offset st s hinv hf; exact absurd hf (by decide)
  | succ fuel ih =>
    intro offset st s hinv hf
    rw [v9Walk]
    by_cases hoff : offset = data.length
    · rw [if_pos hoff]
      intro hc; cases hc
    · rw [if_neg hoff]
      simp only []
      cases h1 : readBE data offset 2 with
      | error e1 =>
        cases h2 : readBE data (offset + 2) 2 with
        | error e2 =>
          intro hc; simp at hc
        | ok fsLen =>
          intro hc; simp at hc
      | ok fsId =>
        cases h2 : readBE data (offset + 2) 2 with
        | error e2 =>
          intro hc; simp at hc
        | ok fsLen =>
          simp only []
          have hb1 := readBE_ok_bound _ _ _ _ (by decide) h1
          split
          · cases h3 : v9TemplateFlowSet (pyDrop data offset) with
            | error e =>
              intro hc
              simp only [Except.error.injEq, Prod.mk.injEq] at hc
              exact v9TemplateFlowSet_no_wfo _ _ h3 hc.1
            | ok r =>
              obtain ⟨a, tfsLen, tpls⟩ := r
              simp only []
              split
              · intro hc; cases hc
              next hlen0 =>
                exact ih _ _ _ (by omega) (by omega)
          · split
            · cases h3 : v9OptionsTemplateFlowSet (pyDrop data offset) with
              | error e =>
                intro hc
                simp only [Except.error.injEq, Prod.mk.injEq] at hc
                exact v9OptionsTemplateFlowSet_no_wfo _ _ h3 hc.1
              | ok r =>
                obtain ⟨a, otfsLen, tpls⟩ := r
                simp only []
                split
                · intro hc; cases hc
                next hlen0 =>
                  exact ih _ _ _ (by omega) (by omega)
            · cases hg : pyGet st.templates fsId with
              | none =>
                simp only []
                split
                · intro hc; cases hc
                next hlen0 =>
                  exact ih _ _ _ (by omega) (by omega)
              | some t =>
                cases t with
                | record tr =>
                  simp only []
                  cases h3 : v9DataFlowSet (pyDrop data offset) tr with
                  | error e =>
                    intro hc
                    simp only [Except.error.injEq, Prod.mk.injEq] at hc
                    exact v9DataFlowSet_no_wfo _ _ _ h3 hc.1
                  | ok r =>
                    obtain ⟨a, dfsLen, flows⟩ := r
                    simp only []
                    split
                    · intro hc; cases hc
                    next hlen0 =>
                      exact ih _ _ _ (by omega) (by omega)
                | options o =>
                  simp only []
                  cases h3 : v9OptionsDataFlowSet (pyDrop data offset) o with
                  | error e =>
                    intro hc
                    simp only [Except.error.injEq, Prod.mk.injEq] at hc
                    exact v9OptionsDataFlowSet_no_wfo _ _ _ h3 hc.1
                  | ok r =>
                    obtain ⟨a, odfsLen, recs⟩ := r
                    simp only []
                    split
                    · intro hc; cases hc
                    next hlen0 =>
                      exact ih _ _ _ (by omega) (by omega)

/-- The skipped-flowset second pass never fails with the walk's fuel
marker. -/
theorem v9Reprocess_no_wfo (data : List Nat) (store : PyDict V9Template) :
    ∀ (offs : List Nat) (flows : List (PyDict V9Value))
      (options : List V9OptRecord) (e : PyErr) (s : PyDict V9Template),
      v9Reprocess data store flows options offs = .error (e, s) →
      e ≠ .walkFuelOut := by
  intro offs
  induction offs with
  | nil => intro flows options e s h; cases h
  | cons off rest ih =>
    intro flows options e s h
    rw [v9Reprocess] at h
    cases h1 : readBE data off 2 with
    | error e1 =>
      rw [h1] at h
      injection h with h
      injection h with he hs
      subst he
      rw [readBE_error _ _ _ _ h1]
      intro hc; cases hc
    | ok fsId =>
      rw [h1] at h
      simp only [] at h
      cases hg : pyGet store fsId with
      | none =>
        rw [hg] at h
        injection h with h
        injection h with he hs
        subst he
        intro hc; cases hc
      | some t =>
        cases t with
        | record tr =>
          rw [hg] at h
          simp only [] at h
          cases h3 : v9DataFlowSet (pyDrop data off) tr with
          | error e3 =>
            rw [h3] at h
            injection h with h
            injection h with he hs
            subst he
            exact v9DataFlowSet_no_wfo _ _ _ h3
          | ok r =>
            obtain ⟨a, b, fl⟩ := r
            rw [h3] at h
            simp only [] at h
            exact ih _ _ _ _ h
        | options o =>
          rw [hg] at h
          simp only [] at h
          cases h3 : v9OptionsDataFlowSet (pyDrop data off) o with
          | error e3 =>
            rw [h3] at h
            injection h with h
            injection h with he hs
            subst he
            exact v9OptionsDataFlowSet_no_wfo _ _ _ h3
          | ok r =>
            obtain ⟨a, b, recs⟩ := r
            rw [h3] at h
            simp only [] at h
            exact ih _ _ _ _ h

/-- C10: for every input datagram and every template store, the flowset
walk of `V9ExportPacket.__init__` terminates: with fuel `len(data) + 2`
(one step per octet plus slack, while every recursing iteration advances
by at least one octet) the fuel-exhaustion marker is unreachable, because
a flowset declaring length 0 breaks the loop instead of advancing the
offset by zero, and an offset that overshoots the datagram end fails the
flowset-header read with `struct.error` rather than iterating further. -/
theorem c10_flowset_walk_terminates (data : List Nat)
    (templates : PyDict V9Template) (s : PyDict V9Template) :
    v9ExportPacket data templates ≠ .error (.walkFuelOut, s) := by
  unfold v9ExportPacket
  cases hh : v9ParseHeader data with
  | error e =>
    simp only []
    intro hc
    injection hc with hc
    injection hc with hc1 hc2
    rw [hc1] at hh
    exact absurd (v9ParseHeader_error _ _ hh) (by decide)
  | ok h =>
    simp only []
    cases hw : v9Walk data 20 ⟨templates, false, [], [], []⟩ (data.length + 2) with
    | error es =>
      simp only []
      obtain ⟨e, s1⟩ := es
      intro hc
      injection hc with hc
      injection hc with hc1 hc2
      rw [hc1] at hw
      exact v9Walk_no_wfo data (data.length + 2) 20 _ s1 (by omega) (by omega) hw
    | ok st =>
      simp only []
      split
      · intro hc; cases hc
      · split
        · cases hr : v9Reprocess data st.templates st.flows st.options st.skipped with
          | error es =>
            simp only []
            obtain ⟨e, s1⟩ := es
            intro hc
            injection hc with hc
            injection hc with hc1 hc2
            rw [hc1] at hr
            exact v9Reprocess_no_wfo _ _ _ _ _ _ _ hr rfl
          | ok r =>
            obtain ⟨fl, op⟩ := r
            simp only []
            intro hc; cases hc
        · intro hc
          injection hc with hc
          injection hc with hc1 hc2
          cases hc1

/-- Witness: concrete evaluation of C10 at a datagram whose data flowset
references an unknown template. -/
theorem c10_flowset_walk_terminates_witness :
    v9ExportPacket v9OrphanData [] ≠ .error (.walkFuelOut, []) :=
  c10_flowset_walk_terminates v9OrphanData [] []

end Netflow



